import Mathlib

/-!
# Reconciliation of a `Database` resource

A shallow embedding of `pkg/controller/database/database_controller.go`:
the resource builders (`newDeploymentForCR`, `newServiceForCR`,
`newSecretForCR`, `newConfigMapForCr`), `dbName`, and `Reconcile`.

The object store behind `r.client` is an explicit state (`Store`); every call
`Reconcile` makes on it, and every `SetControllerReference`, is logged in a
trace of `Event`s together with its result.  Failures of these external calls
are injected through `Faults`, one field per call site of the source.
-/

set_option linter.dupNamespace false

set_option linter.unusedTactic false
set_option linter.unreachableTactic false

namespace PostgresqlOperator

/-! ## Constants (source lines 27-40) -/

/-- ServiceName is the name of the service. -/
def ServiceName : String := "postgresql"
/-- DBHostKey is the config map key for DB host. -/
def DBHostKey : String := "db.host"
/-- DBPortKey is the config map key for DB port. -/
def DBPortKey : String := "db.port"
/-- DBUsernameKey is the config map key for DB username. -/
def DBUsernameKey : String := "db.user"
/-- DBPasswordKey is the config map key for DB password. -/
def DBPasswordKey : String := "db.password"
/-- DBNameKey is the config map key for DB name. -/
def DBNameKey : String := "db.name"

/-! ## Go maps -/

/-- A Go `map[string]string`: an association list in which a key occurs at most once. -/
abbrev StrMap := List (String × String)

/-- Reading `m[k]`: the value stored under `k`, or the zero value `""`. -/
def mapGet : StrMap → String → String
  | [], _ => ""
  | (k', v') :: rest, k => if k' = k then v' else mapGet rest k

/-- Assigning `m[k] = v`: replaces the value of an existing key, else adds the key. -/
def mapSet : StrMap → String → String → StrMap
  | [], k, v => [(k, v)]
  | (k', v') :: rest, k, v => if k' = k then (k, v) :: rest else (k', v') :: mapSet rest k v

/-- The keys of a map. -/
def mapKeys (m : StrMap) : List String := m.map Prod.fst

/-- The bytes of a Go string, `[]byte(s)`: its UTF-8 encoding, each byte as a number below 256. -/
def bytesOf (s : String) : List Nat :=
  (s.data.flatMap String.utf8EncodeChar).map UInt8.toNat

/-! ## Errors -/

/-- Errors of the store and of the ownership helper.  `notFound` is the class recognised by
`errors.IsNotFound`; `other` stands for every remaining error, told apart by a code. -/
inductive Err where
  | notFound
  | alreadyExists
  | other (code : Nat)
  deriving DecidableEq, Repr

/-- The test `errors.IsNotFound(err)`. -/
def IsNotFound : Err → Bool
  | .notFound => true
  | _ => false

/-! ## Objects -/

/-- An owner reference as produced by `metav1.NewControllerRef`. -/
structure OwnerReference where
  apiVersion : String
  kind : String
  name : String
  uid : String
  controller : Bool
  blockOwnerDeletion : Bool
  deriving DecidableEq, Repr

/-- Modelled from the spec: the desired configuration of a Primary, `spec{image, imageName, dbName}`
(the package `pkg/apis/postgresql/v1alpha1` declaring it is not among the sources). -/
structure DatabaseSpec where
  Image : String
  ImageName : String
  DBName : String
  deriving DecidableEq, Repr

/-- Modelled from the spec: the observed state of a Primary,
`status{dbName, connectionAddress, connectionPort, credentialsRef, configRef}`, under the field
names the controller uses; an unset field holds the zero value of its type. -/
structure DatabaseStatus where
  DBName : String
  DBConnectionIP : String
  DBConnectionPort : Int
  DBCredentials : String
  DBConfigMap : String
  deriving DecidableEq, Repr

/-- Modelled from the spec: the Primary object, with its identity (`name`, `namespace`, and the
`uid` the store gave it), its spec and its status. -/
structure Database where
  Name : String
  Namespace : String
  UID : String
  Spec : DatabaseSpec
  Status : DatabaseStatus
  deriving DecidableEq, Repr

/-- The status in which no field is set. -/
def DatabaseStatus.empty : DatabaseStatus := ⟨"", "", 0, "", ""⟩

structure ContainerPort where
  ContainerPort : Int
  Protocol : String
  deriving DecidableEq, Repr

structure EnvVar where
  Name : String
  Value : String
  deriving DecidableEq, Repr

structure Container where
  Name : String
  Image : String
  ImagePullPolicy : String
  Ports : List ContainerPort
  Env : List EnvVar
  deriving DecidableEq, Repr

/-- The pod template of a Deployment: its metadata and the containers of its pod spec. -/
structure PodTemplateSpec where
  Name : String
  Namespace : String
  Labels : StrMap
  Containers : List Container
  deriving DecidableEq, Repr

/-- The spec of a Deployment; `Replicas` and `Selector` are pointers in Go, hence optional. -/
structure DeploymentSpec where
  StrategyType : String
  Replicas : Option Int
  SelectorMatchLabels : Option StrMap
  Template : PodTemplateSpec
  deriving DecidableEq, Repr

/-- The Workload. -/
structure Deployment where
  Name : String
  Namespace : String
  Labels : StrMap
  OwnerReferences : List OwnerReference
  Spec : DeploymentSpec
  deriving DecidableEq, Repr

/-- The two forms of an `intstr.IntOrString`. -/
inductive IntStrType where
  | Int
  | String
  deriving DecidableEq, Repr

structure IntOrString where
  Type_ : IntStrType
  IntVal : Int
  StrVal : String
  deriving DecidableEq, Repr

/-- The constructor `intstr.FromInt`. -/
def FromInt (val : Int) : IntOrString := ⟨.Int, val, ""⟩

structure ServicePort where
  Name : String
  Port : Int
  Protocol : String
  TargetPort : IntOrString
  deriving DecidableEq, Repr

structure ServiceSpec where
  Ports : List ServicePort
  Selector : StrMap
  ClusterIP : String
  deriving DecidableEq, Repr

/-- The NetworkEndpoint. -/
structure Service where
  Name : String
  Namespace : String
  Labels : StrMap
  OwnerReferences : List OwnerReference
  Spec : ServiceSpec
  deriving DecidableEq, Repr

/-- The CredentialStore. -/
structure Secret where
  Name : String
  Namespace : String
  Labels : StrMap
  OwnerReferences : List OwnerReference
  Type_ : String
  Data : List (String × List Nat)
  deriving DecidableEq, Repr

/-- The ConfigStore. -/
structure ConfigMap where
  Name : String
  Namespace : String
  Labels : StrMap
  OwnerReferences : List OwnerReference
  Data : StrMap
  deriving DecidableEq, Repr

/-! ## Builders (source lines 258-392) -/

/-- Source lines 383-388. -/
def dbName (cr : Database) : String :=
  if cr.Spec.DBName ≠ "" then cr.Spec.DBName else "postgres"

/-- Source lines 258-284.  `ClusterIP` is not set by the builder and keeps its zero value. -/
def newServiceForCR (cr : Database) : Service :=
  let labels : StrMap := [("app", cr.Name)]
  let svcPort : ServicePort :=
    { Name := cr.Name ++ "-postgresql"
      Port := 5432
      Protocol := "TCP"
      TargetPort := FromInt 5432 }
  let svcPorts : List ServicePort := [] ++ [svcPort]
  { Name := cr.Name ++ "-postgresql"
    Namespace := cr.Namespace
    Labels := labels
    OwnerReferences := []
    Spec :=
      { Ports := svcPorts
        Selector := [("app", cr.Name)]
        ClusterIP := "" } }

/-- Source lines 286-304. -/
def newSecretForCR (cr : Database) (data : StrMap) : Secret :=
  let labels : StrMap := [("app", cr.Name)]
  { Name := cr.Name ++ "-postgresql"
    Namespace := cr.Namespace
    Labels := labels
    OwnerReferences := []
    Type_ := "Opaque"
    Data :=
      [ ("user", bytesOf (mapGet data DBUsernameKey)),
        ("password", bytesOf (mapGet data DBPasswordKey)) ] }

/-- Source lines 306-319. -/
def newConfigMapForCr (cr : Database) (data : StrMap) : ConfigMap :=
  let labels : StrMap := [("app", cr.Name)]
  { Name := cr.Name
    Namespace := cr.Namespace
    Labels := labels
    OwnerReferences := []
    Data := data }

/-- Source lines 321-381. -/
def newDeploymentForCR (cr : Database) (data : StrMap) : Deployment :=
  let labels : StrMap := [("app", cr.Name)]
  let containerPorts : List ContainerPort := [{ ContainerPort := 5432, Protocol := "TCP" }]
  { Name := cr.Name ++ "-postgresql"
    Namespace := cr.Namespace
    Labels := labels
    OwnerReferences := []
    Spec :=
      { StrategyType := "Recreate"
        Replicas := some 1
        SelectorMatchLabels := some labels
        Template :=
          { Name := cr.Name ++ "-postgresql"
            Namespace := cr.Namespace
            Labels := labels
            Containers :=
              [ { Name := cr.Spec.ImageName
                  Image := cr.Spec.Image
                  ImagePullPolicy := "IfNotPresent"
                  Ports := containerPorts
                  Env :=
                    [ { Name := "POSTGRES_USER", Value := mapGet data DBUsernameKey },
                      { Name := "POSTGRES_PASSWORD", Value := mapGet data DBPasswordKey },
                      { Name := "POSTGRES_DB", Value := mapGet data DBNameKey },
                      { Name := "PGDATA", Value := "/var/lib/postgresql/data/pgdata" } ] } ] } } }

/-! ## The object store behind `r.client` -/

/-- The state of the object store: the objects of the five kinds the controller touches. -/
structure Store where
  databases : List Database
  deployments : List Deployment
  services : List Service
  secrets : List Secret
  configMaps : List ConfigMap
  deriving DecidableEq, Repr

/-- The key of a reconcile request, `request.NamespacedName`. -/
structure Request where
  Namespace : String
  Name : String
  deriving DecidableEq, Repr

/-- The Primary stored under a key, if any. -/
def findDatabase (s : Store) (ns name : String) : Option Database :=
  s.databases.find? (fun o => decide (o.Namespace = ns ∧ o.Name = name))

/-- The Deployment stored under a key, if any. -/
def findDeployment (s : Store) (ns name : String) : Option Deployment :=
  s.deployments.find? (fun o => decide (o.Namespace = ns ∧ o.Name = name))

/-- The Service stored under a key, if any. -/
def findService (s : Store) (ns name : String) : Option Service :=
  s.services.find? (fun o => decide (o.Namespace = ns ∧ o.Name = name))

/-- The Secret stored under a key, if any. -/
def findSecret (s : Store) (ns name : String) : Option Secret :=
  s.secrets.find? (fun o => decide (o.Namespace = ns ∧ o.Name = name))

/-- The ConfigMap stored under a key, if any. -/
def findConfigMap (s : Store) (ns name : String) : Option ConfigMap :=
  s.configMaps.find? (fun o => decide (o.Namespace = ns ∧ o.Name = name))

/-- The result of `client.Get`: the injected error if there is one, else the stored object, else
a not-found error. -/
def clientGet {α : Type} (fault : Option Err) (found : Option α) : Except Err α :=
  match fault with
  | some err => .error err
  | none =>
    match found with
    | some o => .ok o
    | none => .error .notFound

/-- The store with one more Deployment. -/
def Store.addDeployment (s : Store) (o : Deployment) : Store :=
  { s with deployments := s.deployments ++ [o] }

/-- The store with one more Service. -/
def Store.addService (s : Store) (o : Service) : Store :=
  { s with services := s.services ++ [o] }

/-- The store with one more Secret. -/
def Store.addSecret (s : Store) (o : Secret) : Store :=
  { s with secrets := s.secrets ++ [o] }

/-- The store with one more ConfigMap. -/
def Store.addConfigMap (s : Store) (o : ConfigMap) : Store :=
  { s with configMaps := s.configMaps ++ [o] }

/-- The call `client.Create` on a Deployment: fails with the injected error, or because the key is
taken; otherwise the object is added to the store. -/
def clientCreateDeployment (fault : Option Err) (s : Store) (o : Deployment) : Except Err Store :=
  match fault with
  | some err => .error err
  | none =>
    if (findDeployment s o.Namespace o.Name).isSome then .error .alreadyExists
    else .ok (s.addDeployment o)

/-- The Service as the store keeps it: one submitted without a cluster address gets the address
`clusterIP` that the store allocates. -/
def allocate (clusterIP : String) (o : Service) : Service :=
  if o.Spec.ClusterIP = "" then { o with Spec := { o.Spec with ClusterIP := clusterIP } } else o

/-- The call `client.Create` on a Service. -/
def clientCreateService (fault : Option Err) (clusterIP : String) (s : Store) (o : Service) :
    Except Err Store :=
  match fault with
  | some err => .error err
  | none =>
    if (findService s o.Namespace o.Name).isSome then .error .alreadyExists
    else .ok (s.addService (allocate clusterIP o))

/-- The call `client.Create` on a Secret. -/
def clientCreateSecret (fault : Option Err) (s : Store) (o : Secret) : Except Err Store :=
  match fault with
  | some err => .error err
  | none =>
    if (findSecret s o.Namespace o.Name).isSome then .error .alreadyExists
    else .ok (s.addSecret o)

/-- The call `client.Create` on a ConfigMap. -/
def clientCreateConfigMap (fault : Option Err) (s : Store) (o : ConfigMap) : Except Err Store :=
  match fault with
  | some err => .error err
  | none =>
    if (findConfigMap s o.Namespace o.Name).isSome then .error .alreadyExists
    else .ok (s.addConfigMap o)

/-- Replaces the status of the Primary stored under a key, leaving every other object alone. -/
def setStatus (ns name : String) (st : DatabaseStatus) : List Database → List Database
  | [] => []
  | o :: rest =>
    if o.Namespace = ns ∧ o.Name = name then { o with Status := st } :: rest
    else o :: setStatus ns name st rest

/-- The store in which the Primary of `inst` has the status of `inst`. -/
def Store.withStatus (s : Store) (inst : Database) : Store :=
  { s with databases := setStatus inst.Namespace inst.Name inst.Status s.databases }

/-- The call `client.Status().Update`: fails with the injected error, or with not-found when the
Primary is gone; otherwise the stored Primary takes the status of `inst`. -/
def clientStatusUpdate (fault : Option Err) (s : Store) (inst : Database) : Except Err Store :=
  match fault with
  | some err => .error err
  | none =>
    if (findDatabase s inst.Namespace inst.Name).isSome then .ok (s.withStatus inst)
    else .error .notFound

/-! ## Ownership (`controllerutil.SetControllerReference`) -/

/-- The group-version and kind under which `r.scheme` knows the `Database` type. -/
structure Scheme where
  apiVersion : String
  kind : String
  deriving DecidableEq, Repr

/-- The reference `metav1.NewControllerRef` builds: it names the owner by name and uid and
marks it as the controller. -/
def NewControllerRef (scheme : Scheme) (owner : Database) : OwnerReference :=
  { apiVersion := scheme.apiVersion
    kind := scheme.kind
    name := owner.Name
    uid := owner.UID
    controller := true
    blockOwnerDeletion := true }

/-- The call `controllerutil.SetControllerReference(owner, object, r.scheme)` on an object that
has no controller yet (the controller only calls it on objects fresh from a builder): it fails
with the injected error, or returns the owner references of the object with the controller
reference to `owner` added. -/
def SetControllerReference (fault : Option Err) (scheme : Scheme) (owner : Database)
    (existingRefs : List OwnerReference) : Except Err (List OwnerReference) :=
  match fault with
  | some err => .error err
  | none => .ok (existingRefs ++ [NewControllerRef scheme owner])

/-! ## The environment and the trace of one invocation -/

/-- The outcome imposed on each external call of `Reconcile`, one field per call site:
`none` lets the call run against the store, `some err` makes it return `err`. -/
structure Faults where
  getInstance : Option Err
  refDeployment : Option Err
  getDeployment : Option Err
  createDeployment : Option Err
  updateDBName : Option Err
  refService : Option Err
  getService : Option Err
  createService : Option Err
  updateConnection : Option Err
  refSecret : Option Err
  getSecret : Option Err
  createSecret : Option Err
  updateCredentials : Option Err
  refConfigMap : Option Err
  getConfigMap : Option Err
  createConfigMap : Option Err
  updateConfigMap : Option Err
  deriving DecidableEq, Repr

/-- No injected failure: every call runs against the store. -/
def Faults.none : Faults :=
  ⟨.none, .none, .none, .none, .none, .none, .none, .none, .none, .none, .none, .none, .none,
    .none, .none, .none, .none⟩

/-- What surrounds one invocation: the scheme, the address the store allocates to a new Service,
and the injected failures. -/
structure Env where
  scheme : Scheme
  clusterIP : String
  faults : Faults
  deriving DecidableEq, Repr

/-- The kinds of object. -/
inductive Kind where
  | database
  | deployment
  | service
  | secret
  | configMap
  deriving DecidableEq, Repr

/-- A child object handed to `client.Create`. -/
inductive Child where
  | deployment (o : Deployment)
  | service (o : Service)
  | secret (o : Secret)
  | configMap (o : ConfigMap)
  deriving DecidableEq, Repr

/-- One external call made by `Reconcile`, with its result (`none`: success). -/
inductive Event where
  | get (kind : Kind) (ns name : String) (err : Option Err)
  | setControllerReference (kind : Kind) (err : Option Err)
  | create (obj : Child) (err : Option Err)
  | statusUpdate (inst : Database) (err : Option Err)
  deriving DecidableEq, Repr

/-- How an invocation ends: it returns `(reconcile.Result{Requeue: requeue}, err)`, or it panics
on an index out of range. -/
inductive Outcome where
  | ret (requeue : Bool) (err : Option Err)
  | panic
  deriving DecidableEq, Repr

/-- One invocation of `Reconcile`: the store it leaves, the calls it made in order, its outcome. -/
structure Run where
  store : Store
  trace : List Event
  outcome : Outcome
  deriving DecidableEq, Repr

/-! ## Assignments to the status of the fetched Primary -/

/-- The assignment `instance.Status.DBName = v`. -/
def withDBName (inst : Database) (v : String) : Database :=
  { inst with Status := { inst.Status with DBName := v } }

/-- The assignments `instance.Status.DBConnectionIP = ip` and
`instance.Status.DBConnectionPort = port`. -/
def withConnection (inst : Database) (ip : String) (port : Int) : Database :=
  { inst with Status := { inst.Status with DBConnectionIP := ip, DBConnectionPort := port } }

/-- The assignment `instance.Status.DBCredentials = v`. -/
def withCredentials (inst : Database) (v : String) : Database :=
  { inst with Status := { inst.Status with DBCredentials := v } }

/-- The assignment `instance.Status.DBConfigMap = v`. -/
def withConfigMap (inst : Database) (v : String) : Database :=
  { inst with Status := { inst.Status with DBConfigMap := v } }

/-! ## `Reconcile` (source lines 116-256)

The body of `Reconcile` is cut at its four stages; each stage takes the store `s`, the trace `t`
so far, the fetched Primary `inst` (the variable `instance` of the source, with the status fields
assigned so far) and the map `data`, and ends the invocation or hands over to the next stage.
-/

/-- Source lines 246-255: record the ConfigMap name in the status, persist it, and finish. -/
def persistConfigMap (env : Env) (s : Store) (t : List Event) (inst : Database)
    (configMapFound : ConfigMap) : Run :=
  -- instance.Status.DBConfigMap = configMapFound.Name
  let inst := withConfigMap inst configMapFound.Name
  -- err = r.client.Status().Update(context.TODO(), instance)
  match clientStatusUpdate env.faults.updateConfigMap s inst with
  | .error err => ⟨s, t ++ [.statusUpdate inst (some err)], .ret false (some err)⟩
  | .ok s' => ⟨s', t ++ [.statusUpdate inst none], .ret false none⟩

/-- Source lines 228-255: the ConfigMap stage. -/
def ensureConfigMap (env : Env) (s : Store) (t : List Event) (inst : Database)
    (data : StrMap) : Run :=
  let configMap := newConfigMapForCr inst data
  -- Set Database instance as the owner and controller
  match SetControllerReference env.faults.refConfigMap env.scheme inst
      configMap.OwnerReferences with
  | .error err => ⟨s, t ++ [.setControllerReference .configMap (some err)], .ret false (some err)⟩
  | .ok refs =>
    let configMap : ConfigMap := { configMap with OwnerReferences := refs }
    let t := t ++ [.setControllerReference .configMap none]
    -- Check if this ConfigMap already exists
    match clientGet env.faults.getConfigMap
        (findConfigMap s configMap.Namespace configMap.Name) with
    | .error err =>
      let t := t ++ [.get .configMap configMap.Namespace configMap.Name (some err)]
      if IsNotFound err then
        match clientCreateConfigMap env.faults.createConfigMap s configMap with
        | .error err => ⟨s, t ++ [.create (.configMap configMap) (some err)], .ret false (some err)⟩
        | .ok s' =>
          -- configMapFound = configMap, and no return: the status is persisted right away
          persistConfigMap env s' (t ++ [.create (.configMap configMap) none]) inst configMap
      else ⟨s, t, .ret false (some err)⟩
    | .ok configMapFound =>
      persistConfigMap env s (t ++ [.get .configMap configMap.Namespace configMap.Name none]) inst
        configMapFound

/-- Source lines 200-255: the Secret stage, then the ConfigMap stage. -/
def ensureSecret (env : Env) (s : Store) (t : List Event) (inst : Database)
    (data : StrMap) : Run :=
  let secret := newSecretForCR inst data
  -- Set Database instance as the owner and controller
  match SetControllerReference env.faults.refSecret env.scheme inst secret.OwnerReferences with
  | .error err => ⟨s, t ++ [.setControllerReference .secret (some err)], .ret false (some err)⟩
  | .ok refs =>
    let secret : Secret := { secret with OwnerReferences := refs }
    let t := t ++ [.setControllerReference .secret none]
    -- Check if this Secret already exists
    match clientGet env.faults.getSecret (findSecret s secret.Namespace secret.Name) with
    | .error err =>
      let t := t ++ [.get .secret secret.Namespace secret.Name (some err)]
      if IsNotFound err then
        match clientCreateSecret env.faults.createSecret s secret with
        | .error err => ⟨s, t ++ [.create (.secret secret) (some err)], .ret false (some err)⟩
        | .ok s' => ⟨s', t ++ [.create (.secret secret) none], .ret true none⟩
      else ⟨s, t, .ret false (some err)⟩
    | .ok secretFound =>
      let t := t ++ [.get .secret secret.Namespace secret.Name none]
      -- instance.Status.DBCredentials = secretFound.Name
      let inst := withCredentials inst secretFound.Name
      match clientStatusUpdate env.faults.updateCredentials s inst with
      | .error err => ⟨s, t ++ [.statusUpdate inst (some err)], .ret false (some err)⟩
      | .ok s' => ensureConfigMap env s' (t ++ [.statusUpdate inst none]) inst data

/-- Source lines 169-255: the Service stage, then the later stages. -/
def ensureService (env : Env) (s : Store) (t : List Event) (inst : Database)
    (data : StrMap) : Run :=
  let service := newServiceForCR inst
  -- Set Database instance as the owner and controller
  match SetControllerReference env.faults.refService env.scheme inst service.OwnerReferences with
  | .error err => ⟨s, t ++ [.setControllerReference .service (some err)], .ret false (some err)⟩
  | .ok refs =>
    let service : Service := { service with OwnerReferences := refs }
    let t := t ++ [.setControllerReference .service none]
    -- Check if this Service already exists
    match clientGet env.faults.getService (findService s service.Namespace service.Name) with
    | .error err =>
      let t := t ++ [.get .service service.Namespace service.Name (some err)]
      if IsNotFound err then
        match clientCreateService env.faults.createService env.clusterIP s service with
        | .error err => ⟨s, t ++ [.create (.service service) (some err)], .ret false (some err)⟩
        | .ok s' => ⟨s', t ++ [.create (.service service) none], .ret true none⟩
      else ⟨s, t, .ret false (some err)⟩
    | .ok serviceFound =>
      let t := t ++ [.get .service service.Namespace service.Name none]
      -- instance.Status.DBConnectionIP = serviceFound.Spec.ClusterIP
      -- instance.Status.DBConnectionPort = int64(serviceFound.Spec.Ports[0].TargetPort.IntVal)
      match serviceFound.Spec.Ports with
      | [] => ⟨s, t, .panic⟩
      | port0 :: _ =>
        let inst := withConnection inst serviceFound.Spec.ClusterIP port0.TargetPort.IntVal
        let data := mapSet data DBHostKey inst.Status.DBConnectionIP
        let data := mapSet data DBPortKey (toString inst.Status.DBConnectionPort)
        match clientStatusUpdate env.faults.updateConnection s inst with
        | .error err => ⟨s, t ++ [.statusUpdate inst (some err)], .ret false (some err)⟩
        | .ok s' => ensureSecret env s' (t ++ [.statusUpdate inst none]) inst data

/-- Source lines 139-255: the Deployment stage, then the later stages. -/
def ensureDeployment (env : Env) (s : Store) (t : List Event) (inst : Database)
    (data : StrMap) : Run :=
  let deployment := newDeploymentForCR inst data
  -- Set Database instance as the owner and controller
  match SetControllerReference env.faults.refDeployment env.scheme inst
      deployment.OwnerReferences with
  | .error err => ⟨s, t ++ [.setControllerReference .deployment (some err)], .ret false (some err)⟩
  | .ok refs =>
    let deployment : Deployment := { deployment with OwnerReferences := refs }
    let t := t ++ [.setControllerReference .deployment none]
    -- Check if this Deployment already exists
    match clientGet env.faults.getDeployment
        (findDeployment s deployment.Namespace deployment.Name) with
    | .error err =>
      let t := t ++ [.get .deployment deployment.Namespace deployment.Name (some err)]
      if IsNotFound err then
        match clientCreateDeployment env.faults.createDeployment s deployment with
        | .error err =>
          ⟨s, t ++ [.create (.deployment deployment) (some err)], .ret false (some err)⟩
        | .ok s' => ⟨s', t ++ [.create (.deployment deployment) none], .ret true none⟩
      else ⟨s, t, .ret false (some err)⟩
    | .ok _deploymentFound =>
      let t := t ++ [.get .deployment deployment.Namespace deployment.Name none]
      -- instance.Status.DBName = data[DBNameKey]
      let inst := withDBName inst (mapGet data DBNameKey)
      match clientStatusUpdate env.faults.updateDBName s inst with
      | .error err => ⟨s, t ++ [.statusUpdate inst (some err)], .ret false (some err)⟩
      | .ok s' => ensureService env s' (t ++ [.statusUpdate inst none]) inst data

/-- Source lines 135-137: the map `data` after the three assignments that follow the fetch. -/
def initialData (inst : Database) : StrMap :=
  let data : StrMap := []
  let data := mapSet data DBNameKey (dbName inst)
  let data := mapSet data DBUsernameKey "postgres"
  let data := mapSet data DBPasswordKey "password"
  data

/-- Source lines 116-256: one invocation of `Reconcile` on the store `s`. -/
def Reconcile (env : Env) (s : Store) (request : Request) : Run :=
  -- Fetch the Database instance
  match clientGet env.faults.getInstance (findDatabase s request.Namespace request.Name) with
  | .error err =>
    let t := [Event.get .database request.Namespace request.Name (some err)]
    if IsNotFound err then
      -- Request object not found: return and don't requeue
      ⟨s, t, .ret false none⟩
    else
      -- Error reading the object
      ⟨s, t, .ret false (some err)⟩
  | .ok inst =>
    let t := [Event.get .database request.Namespace request.Name none]
    ensureDeployment env s t inst (initialData inst)

/-- The store after `n` successive invocations for the same request. -/
def reconcileTimes (env : Env) (request : Request) : Nat → Store → Store
  | 0, s => s
  | n + 1, s => reconcileTimes env request n (Reconcile env s request).store

/-! ## The cold-start scenario -/

/-- The Primary `pgdb1` in namespace `default`, with empty `spec.dbName` and empty status. -/
def pgdb1 : Database :=
  { Name := "pgdb1"
    Namespace := "default"
    UID := "uid-1"
    Spec := { Image := "postgres:11", ImageName := "postgres", DBName := "" }
    Status := DatabaseStatus.empty }

/-- A store holding `pgdb1` and no child. -/
def coldStore : Store := ⟨[pgdb1], [], [], [], []⟩

/-- An environment without failures in which a new Service gets the address `10.0.0.5`. -/
def coldEnv : Env :=
  { scheme := { apiVersion := "postgresql.baiju.dev/v1alpha1", kind := "Database" }
    clusterIP := "10.0.0.5"
    faults := Faults.none }

/-- The request for `pgdb1`. -/
def coldRequest : Request := ⟨"default", "pgdb1"⟩

/-- The store after `k` invocations of the cold-start scenario. -/
def storeAfter (k : Nat) : Store := reconcileTimes coldEnv coldRequest k coldStore

/-- The run of the `k`-th invocation (from 1) of the cold-start scenario. -/
def coldRun (k : Nat) : Run := Reconcile coldEnv (storeAfter (k - 1)) coldRequest

/-- The persisted status of `pgdb1` after `k` invocations of the cold-start scenario. -/
def statusAfter (k : Nat) : Option DatabaseStatus :=
  (findDatabase (storeAfter k) "default" "pgdb1").map (fun d => d.Status)

/-- The cold-start environment, except that the lookup of the Service fails with an error that
is not not-found. -/
def serviceLookupFails : Env :=
  { coldEnv with faults := { Faults.none with getService := some (.other 1) } }

/-- The cold-start environment, except that the lookup of the Secret fails with an error that is
not not-found. -/
def secretLookupFails : Env :=
  { coldEnv with faults := { Faults.none with getSecret := some (.other 1) } }

/-- The cold-start environment, except that the lookup of the ConfigMap fails with an error that
is not not-found. -/
def configMapLookupFails : Env :=
  { coldEnv with faults := { Faults.none with getConfigMap := some (.other 1) } }

/-- The cold-start environment, except that the first status update fails. -/
def statusUpdateFails : Env :=
  { coldEnv with faults := { Faults.none with updateDBName := some (.other 2) } }

/-- The cold-start environment, except that setting the owner of the Service fails. -/
def ownerOfServiceFails : Env :=
  { coldEnv with faults := { Faults.none with refService := some (.other 3) } }

/-- The Deployment that the first invocation of the cold-start scenario submits. -/
def coldDeployment : Deployment :=
  { newDeploymentForCR pgdb1 (initialData pgdb1) with
    OwnerReferences := [NewControllerRef coldEnv.scheme pgdb1] }

/-- Whether an event is a status update. -/
def Event.isStatusUpdate : Event → Bool
  | .statusUpdate _ _ => true
  | _ => false

/-- The kind of a child object. -/
def Child.kind : Child → Kind
  | .deployment _ => .deployment
  | .service _ => .service
  | .secret _ => .secret
  | .configMap _ => .configMap

/-- The owner references of a child object. -/
def Child.ownerReferences : Child → List OwnerReference
  | .deployment o => o.OwnerReferences
  | .service o => o.OwnerReferences
  | .secret o => o.OwnerReferences
  | .configMap o => o.OwnerReferences

/-- The kinds of the objects created with success in a trace, in order. -/
def createdKinds : List Event → List Kind
  | [] => []
  | .create c none :: rest => c.kind :: createdKinds rest
  | _ :: rest => createdKinds rest

/-- The place of a kind in the order Primary, Deployment, Service, Secret, ConfigMap. -/
def Kind.rank : Kind → Nat
  | .database => 0
  | .deployment => 1
  | .service => 2
  | .secret => 3
  | .configMap => 4

/-- The namespace of a child object. -/
def Child.namespace : Child → String
  | .deployment o => o.Namespace
  | .service o => o.Namespace
  | .secret o => o.Namespace
  | .configMap o => o.Namespace

/-- The name of a child object. -/
def Child.name : Child → String
  | .deployment o => o.Name
  | .service o => o.Name
  | .secret o => o.Name
  | .configMap o => o.Name

/-- Whether an event is a create call, whatever its result. -/
def Event.isCreate : Event → Bool
  | .create _ _ => true
  | _ => false

/-- The children that exist for a Primary name form an initial part of the order Deployment,
Service, Secret, ConfigMap: a Service only with its Deployment, a Secret only with its Service,
a ConfigMap only with its Secret. -/
def childrenInOrder (s : Store) : Prop :=
  ∀ ns p : String,
    ((findService s ns (p ++ "-postgresql")).isSome = true →
      (findDeployment s ns (p ++ "-postgresql")).isSome = true) ∧
    ((findSecret s ns (p ++ "-postgresql")).isSome = true →
      (findService s ns (p ++ "-postgresql")).isSome = true) ∧
    ((findConfigMap s ns p).isSome = true →
      (findSecret s ns (p ++ "-postgresql")).isSome = true)

/-- The store after a sequence of invocations, each with its own failures and request. -/
def reconcileAll : List (Env × Request) → Store → Store
  | [], s => s
  | (env, request) :: rest, s => reconcileAll rest (Reconcile env s request).store

/-- The order of the stages: the Primary, then its four children. -/
def stageOrder : List Kind := [.database, .deployment, .service, .secret, .configMap]

/-- The kinds whose lookup found its object, in the order of the calls. -/
def foundKinds : List Event → List Kind
  | [] => []
  | .get k _ _ none :: rest => k :: foundKinds rest
  | _ :: rest => foundKinds rest

/-- The lookups that returned an error, in the order of the calls: kind, namespace, name and
error. -/
def failedLookups : List Event → List (Kind × String × String × Err)
  | [] => []
  | .get k ns name (some e) :: rest => (k, ns, name, e) :: failedLookups rest
  | _ :: rest => failedLookups rest

/-- A Service without any port mapping, under the name of the Service of `pgdb1`. -/
def portlessService : Service :=
  { newServiceForCR pgdb1 with Spec := { Ports := [], Selector := [], ClusterIP := "10.0.0.9" } }

/-- A store holding `pgdb1`, its Deployment, and the Service without port mapping. -/
def portlessStore : Store := ⟨[pgdb1], [coldDeployment], [portlessService], [], []⟩

/-- The Secret that the third invocation of the cold-start scenario submits. -/
def coldSecret : Secret :=
  { newSecretForCR pgdb1 (initialData pgdb1) with
    OwnerReferences := [NewControllerRef coldEnv.scheme pgdb1] }

/-- The ConfigMap that the fourth invocation of the cold-start scenario submits. -/
def coldConfigMap : ConfigMap :=
  { newConfigMapForCr pgdb1
      [("db.name", "postgres"), ("db.user", "postgres"), ("db.password", "password"),
        ("db.host", "10.0.0.5"), ("db.port", "5432")] with
    OwnerReferences := [NewControllerRef coldEnv.scheme pgdb1] }

/-- The owner references of a child as `Reconcile` submits it: the controller reference to the
fetched Primary, and nothing else. -/
def ownedBy (env : Env) (inst : Database) : List OwnerReference :=
  [NewControllerRef env.scheme inst]

/-! ## Facts about the store operations -/

theorem clientGet_ok {α : Type} {fault : Option Err} {found : Option α} {o : α}
    (h : clientGet fault found = .ok o) : fault = none ∧ found = some o := by
  unfold clientGet at h
  split at h
  · cases h
  · split at h
    · cases h; exact ⟨rfl, rfl⟩
    · cases h

theorem clientGet_error {α : Type} {fault : Option Err} {found : Option α} {e : Err}
    (h : clientGet fault found = .error e) :
    fault = some e ∨ (fault = none ∧ found = none ∧ e = .notFound) := by
  unfold clientGet at h
  split at h
  · cases h; exact Or.inl rfl
  · split at h
    · cases h
    · cases h; exact Or.inr ⟨rfl, rfl, rfl⟩

theorem clientGet_error_other {α : Type} {fault : Option Err} {found : Option α} {e : Err}
    (h : clientGet fault found = .error e) (hnf : IsNotFound e = false) : fault = some e := by
  rcases clientGet_error h with h1 | ⟨_, _, h3⟩
  · exact h1
  · subst h3; simp [IsNotFound] at hnf

theorem clientCreateDeployment_ok {fault : Option Err} {s s' : Store} {o : Deployment}
    (h : clientCreateDeployment fault s o = .ok s') :
    fault = none ∧ findDeployment s o.Namespace o.Name = none ∧
      s' = s.addDeployment o := by
  unfold clientCreateDeployment at h
  split at h
  · cases h
  · split at h
    · cases h
    · next hx => cases h; exact ⟨rfl, by simpa using hx, rfl⟩

theorem clientCreateService_ok {fault : Option Err} {ip : String} {s s' : Store} {o : Service}
    (h : clientCreateService fault ip s o = .ok s') :
    fault = none ∧ findService s o.Namespace o.Name = none ∧
      s' = s.addService (allocate ip o) := by
  unfold clientCreateService at h
  split at h
  · cases h
  · split at h
    · cases h
    · next hx => cases h; exact ⟨rfl, by simpa using hx, rfl⟩

theorem clientCreateSecret_ok {fault : Option Err} {s s' : Store} {o : Secret}
    (h : clientCreateSecret fault s o = .ok s') :
    fault = none ∧ findSecret s o.Namespace o.Name = none ∧
      s' = s.addSecret o := by
  unfold clientCreateSecret at h
  split at h
  · cases h
  · split at h
    · cases h
    · next hx => cases h; exact ⟨rfl, by simpa using hx, rfl⟩

theorem clientCreateConfigMap_ok {fault : Option Err} {s s' : Store} {o : ConfigMap}
    (h : clientCreateConfigMap fault s o = .ok s') :
    fault = none ∧ findConfigMap s o.Namespace o.Name = none ∧
      s' = s.addConfigMap o := by
  unfold clientCreateConfigMap at h
  split at h
  · cases h
  · split at h
    · cases h
    · next hx => cases h; exact ⟨rfl, by simpa using hx, rfl⟩

theorem clientStatusUpdate_ok {fault : Option Err} {s s' : Store} {inst : Database}
    (h : clientStatusUpdate fault s inst = .ok s') :
    fault = none ∧ (findDatabase s inst.Namespace inst.Name).isSome = true ∧
      s' = s.withStatus inst := by
  unfold clientStatusUpdate at h
  split at h
  · cases h
  · split at h
    · next hx => cases h; exact ⟨rfl, hx, rfl⟩
    · cases h

theorem findSecret_name {s : Store} {ns name : String} {o : Secret}
    (h : findSecret s ns name = some o) : o.Namespace = ns ∧ o.Name = name := by
  have := List.find?_some h
  simpa using this

theorem findConfigMap_name {s : Store} {ns name : String} {o : ConfigMap}
    (h : findConfigMap s ns name = some o) : o.Namespace = ns ∧ o.Name = name := by
  have := List.find?_some h
  simpa using this

theorem findDatabase_name {s : Store} {ns name : String} {o : Database}
    (h : findDatabase s ns name = some o) : o.Namespace = ns ∧ o.Name = name := by
  have := List.find?_some h
  simpa using this

@[simp] theorem withStatus_proj (s : Store) (i : Database) :
    (s.withStatus i).deployments = s.deployments ∧ (s.withStatus i).services = s.services ∧
    (s.withStatus i).secrets = s.secrets ∧ (s.withStatus i).configMaps = s.configMaps :=
  ⟨rfl, rfl, rfl, rfl⟩

@[simp] theorem addDeployment_proj (s : Store) (o : Deployment) :
    (s.addDeployment o).databases = s.databases ∧
    (s.addDeployment o).deployments = s.deployments ++ [o] ∧
    (s.addDeployment o).services = s.services ∧ (s.addDeployment o).secrets = s.secrets ∧
    (s.addDeployment o).configMaps = s.configMaps :=
  ⟨rfl, rfl, rfl, rfl, rfl⟩

@[simp] theorem addService_proj (s : Store) (o : Service) :
    (s.addService o).databases = s.databases ∧ (s.addService o).deployments = s.deployments ∧
    (s.addService o).services = s.services ++ [o] ∧ (s.addService o).secrets = s.secrets ∧
    (s.addService o).configMaps = s.configMaps :=
  ⟨rfl, rfl, rfl, rfl, rfl⟩

@[simp] theorem addSecret_proj (s : Store) (o : Secret) :
    (s.addSecret o).databases = s.databases ∧ (s.addSecret o).deployments = s.deployments ∧
    (s.addSecret o).services = s.services ∧ (s.addSecret o).secrets = s.secrets ++ [o] ∧
    (s.addSecret o).configMaps = s.configMaps :=
  ⟨rfl, rfl, rfl, rfl, rfl⟩

@[simp] theorem addConfigMap_proj (s : Store) (o : ConfigMap) :
    (s.addConfigMap o).databases = s.databases ∧ (s.addConfigMap o).deployments = s.deployments ∧
    (s.addConfigMap o).services = s.services ∧ (s.addConfigMap o).secrets = s.secrets ∧
    (s.addConfigMap o).configMaps = s.configMaps ++ [o] :=
  ⟨rfl, rfl, rfl, rfl, rfl⟩

@[simp] theorem find_withStatus (s : Store) (i : Database) (ns name : String) :
    findDeployment (s.withStatus i) ns name = findDeployment s ns name ∧
    findService (s.withStatus i) ns name = findService s ns name ∧
    findSecret (s.withStatus i) ns name = findSecret s ns name ∧
    findConfigMap (s.withStatus i) ns name = findConfigMap s ns name :=
  ⟨rfl, rfl, rfl, rfl⟩

@[simp] theorem find_addDeployment (s : Store) (o : Deployment) (ns name : String) :
    findDatabase (s.addDeployment o) ns name = findDatabase s ns name ∧
    findService (s.addDeployment o) ns name = findService s ns name ∧
    findSecret (s.addDeployment o) ns name = findSecret s ns name ∧
    findConfigMap (s.addDeployment o) ns name = findConfigMap s ns name :=
  ⟨rfl, rfl, rfl, rfl⟩

@[simp] theorem find_addService (s : Store) (o : Service) (ns name : String) :
    findDatabase (s.addService o) ns name = findDatabase s ns name ∧
    findDeployment (s.addService o) ns name = findDeployment s ns name ∧
    findSecret (s.addService o) ns name = findSecret s ns name ∧
    findConfigMap (s.addService o) ns name = findConfigMap s ns name :=
  ⟨rfl, rfl, rfl, rfl⟩

@[simp] theorem find_addSecret (s : Store) (o : Secret) (ns name : String) :
    findDatabase (s.addSecret o) ns name = findDatabase s ns name ∧
    findDeployment (s.addSecret o) ns name = findDeployment s ns name ∧
    findService (s.addSecret o) ns name = findService s ns name ∧
    findConfigMap (s.addSecret o) ns name = findConfigMap s ns name :=
  ⟨rfl, rfl, rfl, rfl⟩

@[simp] theorem find_addConfigMap (s : Store) (o : ConfigMap) (ns name : String) :
    findDatabase (s.addConfigMap o) ns name = findDatabase s ns name ∧
    findDeployment (s.addConfigMap o) ns name = findDeployment s ns name ∧
    findService (s.addConfigMap o) ns name = findService s ns name ∧
    findSecret (s.addConfigMap o) ns name = findSecret s ns name :=
  ⟨rfl, rfl, rfl, rfl⟩

/-- A lookup of the object just added under its own key, when the key was free, finds it. -/
theorem findConfigMap_addConfigMap {s : Store} {o : ConfigMap} {ns name : String}
    (hns : o.Namespace = ns) (hname : o.Name = name) (h : findConfigMap s ns name = none) :
    findConfigMap (s.addConfigMap o) ns name = some o := by
  unfold findConfigMap at *
  subst hns hname
  have h' : ∀ x ∈ s.configMaps, x.Namespace = o.Namespace → ¬x.Name = o.Name := by
    simpa using h
  simp [Store.addConfigMap, List.find?_append]
  exact Or.inr h'

theorem find_setStatus (ns name : String) (st : DatabaseStatus) (k1 k2 : String) :
    ∀ l : List Database,
      (setStatus ns name st l).find? (fun o => decide (o.Namespace = k1 ∧ o.Name = k2)) =
        (l.find? (fun o => decide (o.Namespace = k1 ∧ o.Name = k2))).map
          (fun d => if d.Namespace = ns ∧ d.Name = name then { d with Status := st } else d)
  | [] => rfl
  | o :: rest => by
    unfold setStatus
    by_cases hk : o.Namespace = ns ∧ o.Name = name
    · rw [if_pos hk]
      by_cases hq : o.Namespace = k1 ∧ o.Name = k2
      · rw [List.find?_cons_of_pos _ (by exact decide_eq_true hq),
          List.find?_cons_of_pos _ (by exact decide_eq_true hq), Option.map_some', if_pos hk]
      · rw [List.find?_cons_of_neg _ (by simpa using hq),
          List.find?_cons_of_neg _ (by simpa using hq)]
        cases hfind : rest.find? (fun o => decide (o.Namespace = k1 ∧ o.Name = k2)) with
        | none => rfl
        | some d =>
          have hd := List.find?_some hfind
          have hd' : d.Namespace = k1 ∧ d.Name = k2 := by simpa using hd
          have hne : ¬(d.Namespace = ns ∧ d.Name = name) := by
            intro hc
            exact hq ⟨hk.1.trans (hc.1.symm.trans hd'.1), hk.2.trans (hc.2.symm.trans hd'.2)⟩
          rw [Option.map_some', if_neg hne]
    · rw [if_neg hk]
      by_cases hq : o.Namespace = k1 ∧ o.Name = k2
      · rw [List.find?_cons_of_pos _ (by exact decide_eq_true hq),
          List.find?_cons_of_pos _ (by exact decide_eq_true hq), Option.map_some', if_neg hk]
      · rw [List.find?_cons_of_neg _ (by simpa using hq),
          List.find?_cons_of_neg _ (by simpa using hq)]
        exact find_setStatus ns name st k1 k2 rest

/-- The Primary found under a key after a status update: the one found before, with the new
status if it is the updated Primary. -/
theorem findDatabase_withStatus (s : Store) (i : Database) (ns name : String) :
    findDatabase (s.withStatus i) ns name =
      (findDatabase s ns name).map
        (fun d => if d.Namespace = i.Namespace ∧ d.Name = i.Name then { d with Status := i.Status }
          else d) := by
  unfold findDatabase Store.withStatus
  exact find_setStatus _ _ _ _ _ _

/-- A status update leaves the Primaries under other keys alone. -/
theorem findDatabase_withStatus_of_ne {s : Store} {i : Database} {ns name : String}
    (h : ¬(ns = i.Namespace ∧ name = i.Name)) :
    findDatabase (s.withStatus i) ns name = findDatabase s ns name := by
  rw [findDatabase_withStatus]
  cases hf : findDatabase s ns name with
  | none => rfl
  | some d =>
    obtain ⟨h1, h2⟩ := findDatabase_name hf
    have hne : ¬(d.Namespace = i.Namespace ∧ d.Name = i.Name) := by
      rw [h1, h2]; exact h
    rw [Option.map_some', if_neg hne]

@[simp] theorem withDBName_proj (i : Database) (v : String) :
    (withDBName i v).Name = i.Name ∧ (withDBName i v).Namespace = i.Namespace ∧
    (withDBName i v).UID = i.UID ∧ (withDBName i v).Spec = i.Spec ∧
    (withDBName i v).Status.DBName = v ∧
    (withDBName i v).Status.DBConnectionIP = i.Status.DBConnectionIP ∧
    (withDBName i v).Status.DBConnectionPort = i.Status.DBConnectionPort ∧
    (withDBName i v).Status.DBCredentials = i.Status.DBCredentials ∧
    (withDBName i v).Status.DBConfigMap = i.Status.DBConfigMap :=
  ⟨rfl, rfl, rfl, rfl, rfl, rfl, rfl, rfl, rfl⟩

@[simp] theorem withConnection_proj (i : Database) (ip : String) (port : Int) :
    (withConnection i ip port).Name = i.Name ∧
    (withConnection i ip port).Namespace = i.Namespace ∧
    (withConnection i ip port).UID = i.UID ∧ (withConnection i ip port).Spec = i.Spec ∧
    (withConnection i ip port).Status.DBName = i.Status.DBName ∧
    (withConnection i ip port).Status.DBConnectionIP = ip ∧
    (withConnection i ip port).Status.DBConnectionPort = port ∧
    (withConnection i ip port).Status.DBCredentials = i.Status.DBCredentials ∧
    (withConnection i ip port).Status.DBConfigMap = i.Status.DBConfigMap :=
  ⟨rfl, rfl, rfl, rfl, rfl, rfl, rfl, rfl, rfl⟩

@[simp] theorem withCredentials_proj (i : Database) (v : String) :
    (withCredentials i v).Name = i.Name ∧ (withCredentials i v).Namespace = i.Namespace ∧
    (withCredentials i v).UID = i.UID ∧ (withCredentials i v).Spec = i.Spec ∧
    (withCredentials i v).Status.DBName = i.Status.DBName ∧
    (withCredentials i v).Status.DBConnectionIP = i.Status.DBConnectionIP ∧
    (withCredentials i v).Status.DBConnectionPort = i.Status.DBConnectionPort ∧
    (withCredentials i v).Status.DBCredentials = v ∧
    (withCredentials i v).Status.DBConfigMap = i.Status.DBConfigMap :=
  ⟨rfl, rfl, rfl, rfl, rfl, rfl, rfl, rfl, rfl⟩

@[simp] theorem withConfigMap_proj (i : Database) (v : String) :
    (withConfigMap i v).Name = i.Name ∧ (withConfigMap i v).Namespace = i.Namespace ∧
    (withConfigMap i v).UID = i.UID ∧ (withConfigMap i v).Spec = i.Spec ∧
    (withConfigMap i v).Status.DBName = i.Status.DBName ∧
    (withConfigMap i v).Status.DBConnectionIP = i.Status.DBConnectionIP ∧
    (withConfigMap i v).Status.DBConnectionPort = i.Status.DBConnectionPort ∧
    (withConfigMap i v).Status.DBCredentials = i.Status.DBCredentials ∧
    (withConfigMap i v).Status.DBConfigMap = v :=
  ⟨rfl, rfl, rfl, rfl, rfl, rfl, rfl, rfl, rfl⟩

/-! ## The shape of a run, stage by stage

Each lemma lists the ways a stage can go, the first being the hand-over to the next stage. -/

theorem persistConfigMap_cases {Q : Run → Prop} (env : Env) (s : Store) (t : List Event)
    (inst : Database) (found : ConfigMap)
    (done : env.faults.updateConfigMap = none →
      (findDatabase s inst.Namespace inst.Name).isSome = true →
      Q ⟨s.withStatus (withConfigMap inst found.Name),
        t ++ [.statusUpdate (withConfigMap inst found.Name) none], .ret false none⟩)
    (updateErr : ∀ e,
      Q ⟨s, t ++ [.statusUpdate (withConfigMap inst found.Name) (some e)],
        .ret false (some e)⟩) :
    Q (persistConfigMap env s t inst found) := by
  unfold persistConfigMap
  simp only
  split
  · next e hu => exact updateErr e
  · next s' hu =>
    obtain ⟨h1, h2, h3⟩ := clientStatusUpdate_ok hu
    subst h3
    exact done h1 (by simpa [withConfigMap] using h2)

theorem ensureConfigMap_cases {Q : Run → Prop} (env : Env) (s : Store) (t : List Event)
    (inst : Database) (data : StrMap) (configMap : ConfigMap)
    (hobj : configMap = { newConfigMapForCr inst data with OwnerReferences := ownedBy env inst })
    (found : ∀ found, findConfigMap s inst.Namespace inst.Name = some found →
      env.faults.getConfigMap = none →
      Q (persistConfigMap env s (t ++ [.setControllerReference .configMap none,
          .get .configMap inst.Namespace inst.Name none]) inst found))
    (created : ∀ e0, IsNotFound e0 = true →
      findConfigMap s inst.Namespace inst.Name = none →
      Q (persistConfigMap env (s.addConfigMap configMap)
        (t ++ [.setControllerReference .configMap none,
          .get .configMap inst.Namespace inst.Name (some e0),
          .create (.configMap configMap) none]) inst configMap))
    (refErr : ∀ e, env.faults.refConfigMap = some e →
      Q ⟨s, t ++ [.setControllerReference .configMap (some e)], .ret false (some e)⟩)
    (getErr : ∀ e, env.faults.getConfigMap = some e → IsNotFound e = false →
      Q ⟨s, t ++ [.setControllerReference .configMap none,
          .get .configMap inst.Namespace inst.Name (some e)], .ret false (some e)⟩)
    (createErr : ∀ e0 e, IsNotFound e0 = true →
      Q ⟨s, t ++ [.setControllerReference .configMap none,
          .get .configMap inst.Namespace inst.Name (some e0),
          .create (.configMap configMap) (some e)], .ret false (some e)⟩) :
    Q (ensureConfigMap env s t inst data) := by
  subst hobj
  unfold ensureConfigMap
  simp only [SetControllerReference, newConfigMapForCr, List.nil_append, ownedBy] at *
  split
  · next e he =>
    split at he
    · cases he; exact refErr _ (by assumption)
    · cases he
  · next refs hrefs =>
    split at hrefs
    · cases hrefs
    · cases hrefs
      split
      · next e0 hget =>
        split
        · next hnf =>
          split
          · next e hc => simpa using createErr e0 e hnf
          · next s' hc =>
            obtain ⟨_, h2, h3⟩ := clientCreateConfigMap_ok hc
            subst h3
            simpa using created e0 hnf h2
        · next hnf =>
          have hnf' : IsNotFound e0 = false := by simpa using hnf
          simpa using getErr e0 (clientGet_error_other hget hnf') hnf'
      · next o hget =>
        obtain ⟨h1, h2⟩ := clientGet_ok hget
        simpa using found o h2 h1

theorem ensureSecret_cases {Q : Run → Prop} (env : Env) (s : Store) (t : List Event)
    (inst : Database) (data : StrMap) (secret : Secret)
    (hobj : secret = { newSecretForCR inst data with OwnerReferences := ownedBy env inst })
    (next : ∀ found, findSecret s inst.Namespace (inst.Name ++ "-postgresql") = some found →
      env.faults.getSecret = none → env.faults.updateCredentials = none →
      (findDatabase s inst.Namespace inst.Name).isSome = true →
      Q (ensureConfigMap env (s.withStatus (withCredentials inst (inst.Name ++ "-postgresql")))
        (t ++ [.setControllerReference .secret none,
          .get .secret inst.Namespace (inst.Name ++ "-postgresql") none,
          .statusUpdate (withCredentials inst (inst.Name ++ "-postgresql")) none])
        (withCredentials inst (inst.Name ++ "-postgresql")) data))
    (refErr : ∀ e, env.faults.refSecret = some e →
      Q ⟨s, t ++ [.setControllerReference .secret (some e)], .ret false (some e)⟩)
    (getErr : ∀ e, env.faults.getSecret = some e → IsNotFound e = false →
      Q ⟨s, t ++ [.setControllerReference .secret none,
          .get .secret inst.Namespace (inst.Name ++ "-postgresql") (some e)],
        .ret false (some e)⟩)
    (createErr : ∀ e0 e, IsNotFound e0 = true →
      Q ⟨s, t ++ [.setControllerReference .secret none,
          .get .secret inst.Namespace (inst.Name ++ "-postgresql") (some e0),
          .create (.secret secret) (some e)], .ret false (some e)⟩)
    (created : ∀ e0, IsNotFound e0 = true →
      findSecret s inst.Namespace (inst.Name ++ "-postgresql") = none →
      Q ⟨s.addSecret secret,
        t ++ [.setControllerReference .secret none,
          .get .secret inst.Namespace (inst.Name ++ "-postgresql") (some e0),
          .create (.secret secret) none], .ret true none⟩)
    (updateErr : ∀ found e,
      findSecret s inst.Namespace (inst.Name ++ "-postgresql") = some found →
      Q ⟨s, t ++ [.setControllerReference .secret none,
          .get .secret inst.Namespace (inst.Name ++ "-postgresql") none,
          .statusUpdate (withCredentials inst (inst.Name ++ "-postgresql")) (some e)],
        .ret false (some e)⟩) :
    Q (ensureSecret env s t inst data) := by
  subst hobj
  unfold ensureSecret
  simp only [SetControllerReference, newSecretForCR, List.nil_append, ownedBy] at *
  split
  · next e he =>
    split at he
    · cases he; exact refErr _ (by assumption)
    · cases he
  · next refs hrefs =>
    split at hrefs
    · cases hrefs
    · cases hrefs
      split
      · next e0 hget =>
        split
        · next hnf =>
          split
          · next e hc => simpa using createErr e0 e hnf
          · next s' hc =>
            obtain ⟨_, h2, h3⟩ := clientCreateSecret_ok hc
            subst h3
            simpa using created e0 hnf h2
        · next hnf =>
          have hnf' : IsNotFound e0 = false := by simpa using hnf
          simpa using getErr e0 (clientGet_error_other hget hnf') hnf'
      · next o hget =>
        obtain ⟨h1, h2⟩ := clientGet_ok hget
        have hname := (findSecret_name h2).2
        simp only [hname]
        split
        · next e hu => simpa using updateErr o e h2
        · next s' hu =>
          obtain ⟨u1, u2, u3⟩ := clientStatusUpdate_ok hu
          subst u3
          simpa using next o h2 h1 u1 (by simpa [withCredentials] using u2)

theorem ensureService_cases {Q : Run → Prop} (env : Env) (s : Store) (t : List Event)
    (inst : Database) (data : StrMap) (service : Service)
    (hobj : service = { newServiceForCR inst with OwnerReferences := ownedBy env inst })
    (next : ∀ found port0 rest,
      findService s inst.Namespace (inst.Name ++ "-postgresql") = some found →
      found.Spec.Ports = port0 :: rest →
      env.faults.getService = none → env.faults.updateConnection = none →
      (findDatabase s inst.Namespace inst.Name).isSome = true →
      Q (ensureSecret env
        (s.withStatus (withConnection inst found.Spec.ClusterIP port0.TargetPort.IntVal))
        (t ++ [.setControllerReference .service none,
          .get .service inst.Namespace (inst.Name ++ "-postgresql") none,
          .statusUpdate (withConnection inst found.Spec.ClusterIP port0.TargetPort.IntVal) none])
        (withConnection inst found.Spec.ClusterIP port0.TargetPort.IntVal)
        (mapSet (mapSet data DBHostKey found.Spec.ClusterIP) DBPortKey
          (toString port0.TargetPort.IntVal))))
    (refErr : ∀ e, env.faults.refService = some e →
      Q ⟨s, t ++ [.setControllerReference .service (some e)], .ret false (some e)⟩)
    (getErr : ∀ e, env.faults.getService = some e → IsNotFound e = false →
      Q ⟨s, t ++ [.setControllerReference .service none,
          .get .service inst.Namespace (inst.Name ++ "-postgresql") (some e)],
        .ret false (some e)⟩)
    (createErr : ∀ e0 e, IsNotFound e0 = true →
      Q ⟨s, t ++ [.setControllerReference .service none,
          .get .service inst.Namespace (inst.Name ++ "-postgresql") (some e0),
          .create (.service service) (some e)], .ret false (some e)⟩)
    (created : ∀ e0, IsNotFound e0 = true →
      findService s inst.Namespace (inst.Name ++ "-postgresql") = none →
      Q ⟨s.addService (allocate env.clusterIP service),
        t ++ [.setControllerReference .service none,
          .get .service inst.Namespace (inst.Name ++ "-postgresql") (some e0),
          .create (.service service) none], .ret true none⟩)
    (panics : ∀ found,
      findService s inst.Namespace (inst.Name ++ "-postgresql") = some found →
      found.Spec.Ports = [] →
      Q ⟨s, t ++ [.setControllerReference .service none,
          .get .service inst.Namespace (inst.Name ++ "-postgresql") none], .panic⟩)
    (updateErr : ∀ found port0 rest e,
      findService s inst.Namespace (inst.Name ++ "-postgresql") = some found →
      found.Spec.Ports = port0 :: rest →
      Q ⟨s, t ++ [.setControllerReference .service none,
          .get .service inst.Namespace (inst.Name ++ "-postgresql") none,
          .statusUpdate (withConnection inst found.Spec.ClusterIP port0.TargetPort.IntVal)
            (some e)],
        .ret false (some e)⟩) :
    Q (ensureService env s t inst data) := by
  subst hobj
  unfold ensureService
  simp only [SetControllerReference, newServiceForCR, List.nil_append, ownedBy] at *
  split
  · next e he =>
    split at he
    · cases he; exact refErr _ (by assumption)
    · cases he
  · next refs hrefs =>
    split at hrefs
    · cases hrefs
    · cases hrefs
      split
      · next e0 hget =>
        split
        · next hnf =>
          split
          · next e hc => simpa using createErr e0 e hnf
          · next s' hc =>
            obtain ⟨_, h2, h3⟩ := clientCreateService_ok hc
            subst h3
            simpa using created e0 hnf h2
        · next hnf =>
          have hnf' : IsNotFound e0 = false := by simpa using hnf
          simpa using getErr e0 (clientGet_error_other hget hnf') hnf'
      · next o hget =>
        obtain ⟨h1, h2⟩ := clientGet_ok hget
        split
        · next hp => simpa using panics o h2 hp
        · next port0 rest hp =>
          split
          · next e hu => simpa using updateErr o port0 rest e h2 hp
          · next s' hu =>
            obtain ⟨u1, u2, u3⟩ := clientStatusUpdate_ok hu
            subst u3
            simpa [withConnection] using
              next o port0 rest h2 hp h1 u1 (by simpa [withConnection] using u2)

theorem ensureDeployment_cases {Q : Run → Prop} (env : Env) (s : Store) (t : List Event)
    (inst : Database) (data : StrMap) (deployment : Deployment)
    (hobj : deployment = { newDeploymentForCR inst data with OwnerReferences := ownedBy env inst })
    (next : ∀ found,
      findDeployment s inst.Namespace (inst.Name ++ "-postgresql") = some found →
      env.faults.getDeployment = none → env.faults.updateDBName = none →
      (findDatabase s inst.Namespace inst.Name).isSome = true →
      Q (ensureService env (s.withStatus (withDBName inst (mapGet data DBNameKey)))
        (t ++ [.setControllerReference .deployment none,
          .get .deployment inst.Namespace (inst.Name ++ "-postgresql") none,
          .statusUpdate (withDBName inst (mapGet data DBNameKey)) none])
        (withDBName inst (mapGet data DBNameKey)) data))
    (refErr : ∀ e, env.faults.refDeployment = some e →
      Q ⟨s, t ++ [.setControllerReference .deployment (some e)], .ret false (some e)⟩)
    (getErr : ∀ e, env.faults.getDeployment = some e → IsNotFound e = false →
      Q ⟨s, t ++ [.setControllerReference .deployment none,
          .get .deployment inst.Namespace (inst.Name ++ "-postgresql") (some e)],
        .ret false (some e)⟩)
    (createErr : ∀ e0 e, IsNotFound e0 = true →
      Q ⟨s, t ++ [.setControllerReference .deployment none,
          .get .deployment inst.Namespace (inst.Name ++ "-postgresql") (some e0),
          .create (.deployment deployment) (some e)], .ret false (some e)⟩)
    (created : ∀ e0, IsNotFound e0 = true →
      findDeployment s inst.Namespace (inst.Name ++ "-postgresql") = none →
      Q ⟨s.addDeployment deployment,
        t ++ [.setControllerReference .deployment none,
          .get .deployment inst.Namespace (inst.Name ++ "-postgresql") (some e0),
          .create (.deployment deployment) none], .ret true none⟩)
    (updateErr : ∀ found e,
      findDeployment s inst.Namespace (inst.Name ++ "-postgresql") = some found →
      Q ⟨s, t ++ [.setControllerReference .deployment none,
          .get .deployment inst.Namespace (inst.Name ++ "-postgresql") none,
          .statusUpdate (withDBName inst (mapGet data DBNameKey)) (some e)],
        .ret false (some e)⟩) :
    Q (ensureDeployment env s t inst data) := by
  subst hobj
  unfold ensureDeployment
  simp only [SetControllerReference, newDeploymentForCR, List.nil_append, ownedBy] at *
  split
  · next e he =>
    split at he
    · cases he; exact refErr _ (by assumption)
    · cases he
  · next refs hrefs =>
    split at hrefs
    · cases hrefs
    · cases hrefs
      split
      · next e0 hget =>
        split
        · next hnf =>
          split
          · next e hc => simpa using createErr e0 e hnf
          · next s' hc =>
            obtain ⟨_, h2, h3⟩ := clientCreateDeployment_ok hc
            subst h3
            simpa using created e0 hnf h2
        · next hnf =>
          have hnf' : IsNotFound e0 = false := by simpa using hnf
          simpa using getErr e0 (clientGet_error_other hget hnf') hnf'
      · next o hget =>
        obtain ⟨h1, h2⟩ := clientGet_ok hget
        split
        · next e hu => simpa using updateErr o e h2
        · next s' hu =>
          obtain ⟨u1, u2, u3⟩ := clientStatusUpdate_ok hu
          subst u3
          simpa using next o h2 h1 u1 (by simpa [withDBName] using u2)

theorem Reconcile_cases {Q : Run → Prop} (env : Env) (s : Store) (request : Request)
    (next : ∀ inst, findDatabase s request.Namespace request.Name = some inst →
      inst.Namespace = request.Namespace → inst.Name = request.Name →
      env.faults.getInstance = none →
      Q (ensureDeployment env s [.get .database request.Namespace request.Name none] inst
        (initialData inst)))
    (absent : ∀ e, IsNotFound e = true →
      clientGet env.faults.getInstance (findDatabase s request.Namespace request.Name)
        = .error e →
      Q ⟨s, [.get .database request.Namespace request.Name (some e)], .ret false none⟩)
    (fetchErr : ∀ e, IsNotFound e = false → env.faults.getInstance = some e →
      Q ⟨s, [.get .database request.Namespace request.Name (some e)], .ret false (some e)⟩) :
    Q (Reconcile env s request) := by
  unfold Reconcile
  split
  · next e hget =>
    simp only
    split
    · next hnf => exact absent e hnf hget
    · next hnf =>
      have hnf' : IsNotFound e = false := by simpa using hnf
      exact fetchErr e hnf' (clientGet_error_other hget hnf')
  · next inst hget =>
    obtain ⟨h1, h2⟩ := clientGet_ok hget
    obtain ⟨h3, h4⟩ := findDatabase_name h2
    exact next inst h2 h3 h4 h1

/-! ## Facts used by the idempotence result -/

theorem mapGet_initialData_name (inst : Database) :
    mapGet (initialData inst) DBNameKey = dbName inst := by
  simp [initialData, mapSet, mapGet, DBNameKey, DBUsernameKey, DBPasswordKey]

theorem setStatus_self (d : Database) :
    ∀ l : List Database,
      l.find? (fun o => decide (o.Namespace = d.Namespace ∧ o.Name = d.Name)) = some d →
      setStatus d.Namespace d.Name d.Status l = l
  | [], _ => rfl
  | o :: rest, h => by
    by_cases hk : o.Namespace = d.Namespace ∧ o.Name = d.Name
    · have : o = d := by simpa [List.find?, hk] using h
      subst this
      simp [setStatus]
    · have h' : rest.find? (fun o => decide (o.Namespace = d.Namespace ∧ o.Name = d.Name))
          = some d := by simpa [List.find?, hk] using h
      simp [setStatus, hk, setStatus_self d rest h']

theorem withStatus_self {s : Store} {d : Database}
    (h : findDatabase s d.Namespace d.Name = some d) : s.withStatus d = s := by
  unfold Store.withStatus
  rw [setStatus_self d s.databases h]

/-- A status update for the requested Primary leaves the Primaries under other keys as they
were, whatever the course of the invocation. -/
theorem reconcile_other_primaries (env : Env) (s : Store) (request : Request)
    (ns name : String) (hkey : ¬(ns = request.Namespace ∧ name = request.Name)) :
    findDatabase (Reconcile env s request).store ns name = findDatabase s ns name := by
  let P : Run → Prop := fun r => findDatabase r.store ns name = findDatabase s ns name
  show P _
  apply Reconcile_cases env s request
  · intro inst hinst hns hname hfi
    apply ensureDeployment_cases env s _ inst _ _ rfl
    · intro dep hdep hgd hud hdb
      apply ensureService_cases env _ _ _ _ _ rfl
      · intro svc port0 rest hsvc hports hgs hus hdb2
        apply ensureSecret_cases env _ _ _ _ _ rfl
        · intro sec hsec hgsec husec hdb3
          apply ensureConfigMap_cases env _ _ _ _ _ rfl
          · intro cm hcm hgcm
            apply persistConfigMap_cases
            all_goals (intros; simp [P, findDatabase_withStatus_of_ne, hns, hname, hkey])
          · intro e0 hnf0 hcm
            apply persistConfigMap_cases
            all_goals (intros; simp [P, findDatabase_withStatus_of_ne, hns, hname, hkey])
          all_goals (intros; simp [P, findDatabase_withStatus_of_ne, hns, hname, hkey])
        all_goals (intros; simp [P, findDatabase_withStatus_of_ne, hns, hname, hkey])
      all_goals (intros; simp [P, findDatabase_withStatus_of_ne, hns, hname, hkey])
    all_goals (intros; simp [P, findDatabase_withStatus_of_ne, hns, hname, hkey])
  all_goals (intros; simp [P])

/-! ## The claims -/

/-- C1 (idempotence on a converged state).  If the Primary is found, its Deployment, Service,
Secret and ConfigMap are found under their deterministic names, the Service has a first port,
the persisted status already holds the derived values, and no call fails, then `Reconcile`
returns without requeue and without error, issues no create call, writes in every status update
the status the Primary already has, and leaves the store as it was; so does any number of
successive invocations. -/
theorem reconcile_converged_idempotent (env : Env) (s : Store) (request : Request)
    (d : Database) (dep : Deployment) (svc : Service) (sec : Secret) (cm : ConfigMap)
    (port0 : ServicePort) (rest : List ServicePort)
    (hfaults : env.faults = Faults.none)
    (hd : findDatabase s request.Namespace request.Name = some d)
    (hdep : findDeployment s d.Namespace (d.Name ++ "-postgresql") = some dep)
    (hsvc : findService s d.Namespace (d.Name ++ "-postgresql") = some svc)
    (hsec : findSecret s d.Namespace (d.Name ++ "-postgresql") = some sec)
    (hcm : findConfigMap s d.Namespace d.Name = some cm)
    (hports : svc.Spec.Ports = port0 :: rest)
    (hname : d.Status.DBName = dbName d)
    (hip : d.Status.DBConnectionIP = svc.Spec.ClusterIP)
    (hport : d.Status.DBConnectionPort = port0.TargetPort.IntVal)
    (hcred : d.Status.DBCredentials = d.Name ++ "-postgresql")
    (hconf : d.Status.DBConfigMap = d.Name) :
    (Reconcile env s request).outcome = .ret false none ∧
    (∀ c r, Event.create c r ∉ (Reconcile env s request).trace) ∧
    (∀ inst r, Event.statusUpdate inst r ∈ (Reconcile env s request).trace →
      inst = d ∧ r = none) ∧
    (Reconcile env s request).store = s ∧
    ∀ n, reconcileTimes env request n s = s := by
  obtain ⟨hns, hnm⟩ := findDatabase_name hd
  have hd' : findDatabase s d.Namespace d.Name = some d := by rw [hns, hnm]; exact hd
  have h1 : withDBName d (mapGet (initialData d) DBNameKey) = d := by
    rw [mapGet_initialData_name, ← hname]; rfl
  have h2 : withConnection d svc.Spec.ClusterIP port0.TargetPort.IntVal = d := by
    rw [← hip, ← hport]; rfl
  have h3 : withCredentials d sec.Name = d := by
    rw [(findSecret_name hsec).2, ← hcred]; rfl
  have h4 : withConfigMap d cm.Name = d := by
    rw [(findConfigMap_name hcm).2, ← hconf]; rfl
  have hs := withStatus_self hd'
  have hrun : Reconcile env s request =
      ⟨s, [.get .database request.Namespace request.Name none,
        .setControllerReference .deployment none,
        .get .deployment d.Namespace (d.Name ++ "-postgresql") none,
        .statusUpdate d none,
        .setControllerReference .service none,
        .get .service d.Namespace (d.Name ++ "-postgresql") none,
        .statusUpdate d none,
        .setControllerReference .secret none,
        .get .secret d.Namespace (d.Name ++ "-postgresql") none,
        .statusUpdate d none,
        .setControllerReference .configMap none,
        .get .configMap d.Namespace d.Name none,
        .statusUpdate d none], .ret false none⟩ := by
    simp [Reconcile, ensureDeployment, ensureService, ensureSecret, ensureConfigMap,
      persistConfigMap, clientGet, clientStatusUpdate, SetControllerReference, hfaults,
      Faults.none, hd, hd', hdep, hsvc, hsec, hcm, hports, newDeploymentForCR, newServiceForCR,
      newSecretForCR, newConfigMapForCr, h1, h2, h3, h4, hs]
  have hstore : (Reconcile env s request).store = s := by rw [hrun]
  refine ⟨by rw [hrun], ?_, ?_, hstore, ?_⟩
  · intro c r
    rw [hrun]
    simp
  · intro inst r
    rw [hrun]
    simp
  · intro n
    induction n with
    | zero => rfl
    | succ k ih => simp [reconcileTimes, hstore, ih]

/-- C1, at the store that the cold-start scenario reaches after four invocations. -/
theorem reconcile_converged_idempotent_witness :
    (Reconcile coldEnv (storeAfter 4) coldRequest).outcome = .ret false none ∧
    (Reconcile coldEnv (storeAfter 4) coldRequest).store = storeAfter 4 ∧
    reconcileTimes coldEnv coldRequest 7 (storeAfter 4) = storeAfter 4 :=
  have h := reconcile_converged_idempotent coldEnv (storeAfter 4) coldRequest
    _ _ _ _ _ _ _ rfl rfl rfl rfl rfl rfl rfl rfl rfl rfl rfl rfl
  ⟨h.1, h.2.2.2.1, h.2.2.2.2 7⟩

/-- C2, as the code does not behave: in the cold-start scenario the fourth invocation, which
creates the ConfigMap, does not return a requeue, and `status.configRef` is already persisted
when it returns. -/
theorem cold_start_fourth_invocation_does_not_requeue :
    (coldRun 4).outcome ≠ .ret true none ∧
    (statusAfter 4).map (fun st => st.DBConfigMap) = some "pgdb1" := by
  decide

/-- C2, amended.  In the cold-start scenario five successive invocations return requeue =
true, true, true, false, false; invocations 1 to 4 create the Deployment, the Service, the
Secret and the ConfigMap, the fifth creates nothing; after the third the status holds the
address `10.0.0.5` and the port 5432, after the fourth it holds both `credentialsRef` and
`configRef`, and the fifth leaves the store as it was. -/
theorem cold_start_trace :
    (coldRun 1).outcome = .ret true none ∧ (coldRun 2).outcome = .ret true none ∧
    (coldRun 3).outcome = .ret true none ∧ (coldRun 4).outcome = .ret false none ∧
    (coldRun 5).outcome = .ret false none ∧
    createdKinds (coldRun 1).trace = [.deployment] ∧
    createdKinds (coldRun 2).trace = [.service] ∧
    createdKinds (coldRun 3).trace = [.secret] ∧
    createdKinds (coldRun 4).trace = [.configMap] ∧
    createdKinds (coldRun 5).trace = [] ∧
    statusAfter 3 = some ⟨"postgres", "10.0.0.5", 5432, "", ""⟩ ∧
    statusAfter 4 = some ⟨"postgres", "10.0.0.5", 5432, "pgdb1-postgresql", "pgdb1"⟩ ∧
    statusAfter 5 = some ⟨"postgres", "10.0.0.5", 5432, "pgdb1-postgresql", "pgdb1"⟩ ∧
    storeAfter 5 = storeAfter 4 := by
  decide

/-- C3, as the code does not behave: the invocation that creates the ConfigMap goes on to a
status update and returns without requeue. -/
theorem configMap_creation_is_followed_by_status_update :
    createdKinds (coldRun 4).trace = [.configMap] ∧
    (coldRun 4).outcome = .ret false none ∧
    (coldRun 4).trace.getLast?.map Event.isStatusUpdate = some true := by
  decide

/-- C3, amended.  A successful create of a Deployment, Service or Secret is the last call of
the invocation, which returns requeue = true and no error.  A successful create of the ConfigMap
is followed by exactly one more call, the status update that persists `status.configRef` as the
name of the ConfigMap, and the invocation returns requeue = false with the result of that
update. -/
theorem requeue_after_create_except_configMap (env : Env) (s : Store) (request : Request)
    (c : Child) (h : Event.create c none ∈ (Reconcile env s request).trace) :
    (c.kind ≠ .configMap →
      (Reconcile env s request).outcome = .ret true none ∧
      (Reconcile env s request).trace.getLast? = some (.create c none)) ∧
    (c.kind = .configMap →
      ∃ inst err,
        (Reconcile env s request).trace.getLast? = some (.statusUpdate inst err) ∧
        (Reconcile env s request).trace.dropLast.getLast? = some (.create c none) ∧
        inst.Status.DBConfigMap = request.Name ∧
        (Reconcile env s request).outcome = .ret false err) := by
  revert h
  let P : Run → Prop := fun r =>
    Event.create c none ∈ r.trace →
      (c.kind ≠ .configMap →
        r.outcome = .ret true none ∧ r.trace.getLast? = some (.create c none)) ∧
      (c.kind = .configMap →
        ∃ inst err, r.trace.getLast? = some (.statusUpdate inst err) ∧
          r.trace.dropLast.getLast? = some (.create c none) ∧
          inst.Status.DBConfigMap = request.Name ∧ r.outcome = .ret false err)
  show P _
  apply Reconcile_cases env s request
  · intro inst hinst hns hname hfi
    apply ensureDeployment_cases env s _ inst _ _ rfl
    · intro dep hdep hgd hud hdb
      apply ensureService_cases env _ _ _ _ _ rfl
      · intro svc port0 rest hsvc hports hgs hus hdb2
        apply ensureSecret_cases env _ _ _ _ _ rfl
        · intro sec hsec hgsec husec hdb3
          apply ensureConfigMap_cases env _ _ _ _ _ rfl
          · intro cm hcm hgcm
            apply persistConfigMap_cases
            all_goals (intros; simp [P]; try (rintro rfl; simp [Child.kind]))
          · intro e0 hnf0 hcm
            apply persistConfigMap_cases
            all_goals (intros; simp [P]; rintro rfl; simp [Child.kind, newConfigMapForCr, hname])
          all_goals (intros; simp [P]; try (rintro rfl; simp [Child.kind]))
        all_goals (intros; simp [P]; try (rintro rfl; simp [Child.kind]))
      all_goals (intros; simp [P]; try (rintro rfl; simp [Child.kind]))
    all_goals (intros; simp [P]; try (rintro rfl; simp [Child.kind]))
  all_goals (intros; simp [P]; try (rintro rfl; simp [Child.kind]))

/-- C3, amended, at the first invocation of the cold-start scenario. -/
theorem requeue_after_create_except_configMap_witness :
    Event.create (.deployment coldDeployment) none ∈ (coldRun 1).trace ∧
    (coldRun 1).outcome = .ret true none ∧
    (coldRun 1).trace.getLast? = some (.create (.deployment coldDeployment) none) :=
  ⟨by decide,
    (requeue_after_create_except_configMap coldEnv coldStore coldRequest
      (.deployment coldDeployment) (by decide)).1 (by decide)⟩

/-- C4, as the code does not behave: after the first invocation of the cold-start scenario,
which creates the Deployment and returns a requeue, the persisted `status.dbName` is still empty,
not `postgres`. -/
theorem first_invocation_persists_no_dbName :
    (coldRun 1).outcome = .ret true none ∧
    createdKinds (coldRun 1).trace = [.deployment] ∧
    statusAfter 0 = some DatabaseStatus.empty ∧
    statusAfter 1 = some DatabaseStatus.empty ∧
    DatabaseStatus.empty.DBName ≠ dbName pgdb1 := by
  decide

/-- C4, amended.  The invocation that creates the Deployment returns requeue = true without any
status update: every Primary in the store, the requested one included, keeps the status it had,
so a status that was empty stays empty, `dbName` included. -/
theorem workload_creation_writes_no_status (env : Env) (s : Store) (request : Request)
    (dep : Deployment)
    (h : Event.create (.deployment dep) none ∈ (Reconcile env s request).trace) :
    (Reconcile env s request).outcome = .ret true none ∧
    (Reconcile env s request).store.databases = s.databases ∧
    ∀ inst r, Event.statusUpdate inst r ∉ (Reconcile env s request).trace := by
  revert h
  let P : Run → Prop := fun r =>
    Event.create (.deployment dep) none ∈ r.trace →
      r.outcome = .ret true none ∧ r.store.databases = s.databases ∧
      ∀ inst e, Event.statusUpdate inst e ∉ r.trace
  show P _
  apply Reconcile_cases env s request
  · intro inst hinst hns hname hfi
    apply ensureDeployment_cases env s _ inst _ _ rfl
    · intro dep hdep hgd hud hdb
      apply ensureService_cases env _ _ _ _ _ rfl
      · intro svc port0 rest hsvc hports hgs hus hdb2
        apply ensureSecret_cases env _ _ _ _ _ rfl
        · intro sec hsec hgsec husec hdb3
          apply ensureConfigMap_cases env _ _ _ _ _ rfl
          · intro cm hcm hgcm
            apply persistConfigMap_cases
            all_goals (intros; simp [P])
          · intro e0 hnf0 hcm
            apply persistConfigMap_cases
            all_goals (intros; simp [P])
          all_goals (intros; simp [P])
        all_goals (intros; simp [P])
      all_goals (intros; simp [P])
    all_goals (intros; simp [P])
  all_goals (intros; simp [P])

/-- C4, amended, at the first invocation of the cold-start scenario. -/
theorem workload_creation_writes_no_status_witness :
    Event.create (.deployment coldDeployment) none ∈ (coldRun 1).trace ∧
    (coldRun 1).store.databases = coldStore.databases :=
  ⟨by decide,
    (workload_creation_writes_no_status coldEnv coldStore coldRequest coldDeployment
      (by decide)).2.1⟩

/-- C5 (deleted mid-flight).  When the fetch of the Primary returns an error, the fetch is the
only call `Reconcile` makes and the store is left as it was; the invocation returns requeue =
false, with no error if the error is not-found and with exactly that error otherwise. -/
theorem reconcile_primary_fetch_fails (env : Env) (s : Store) (request : Request) (err : Err)
    (h : clientGet env.faults.getInstance (findDatabase s request.Namespace request.Name)
      = .error err) :
    (Reconcile env s request).store = s ∧
    (Reconcile env s request).trace
      = [Event.get .database request.Namespace request.Name (some err)] ∧
    (IsNotFound err = true → (Reconcile env s request).outcome = .ret false none) ∧
    (IsNotFound err = false → (Reconcile env s request).outcome = .ret false (some err)) := by
  simp only [Reconcile, h]
  cases hnf : IsNotFound err <;> simp

/-- C5, at a store without any Primary. -/
theorem reconcile_primary_fetch_fails_witness :
    (Reconcile coldEnv ⟨[], [], [], [], []⟩ coldRequest).store = ⟨[], [], [], [], []⟩ ∧
    (Reconcile coldEnv ⟨[], [], [], [], []⟩ coldRequest).outcome = .ret false none :=
  have h := reconcile_primary_fetch_fails coldEnv ⟨[], [], [], [], []⟩ coldRequest .notFound
    rfl
  ⟨h.1, h.2.2.1 rfl⟩

/-- A status write on the key of a Primary in the store replaces the status of that Primary and
nothing else of it. -/
theorem findDatabase_withStatus_found {s : Store} {ns name : String} {d i : Database}
    (h : findDatabase s ns name = some d) (hns : d.Namespace = i.Namespace)
    (hname : d.Name = i.Name) :
    findDatabase (s.withStatus i) ns name = some { d with Status := i.Status } := by
  rw [findDatabase_withStatus, h]
  simp [hns, hname]

/-- At a failing lookup of the Service the store is that of before with the one status write of
the Deployment stage, `status.dbName`, applied to the Primary. -/
theorem service_lookup_failure_store (env : Env) (s : Store) (request : Request)
    (ns name : String) (err : Err) (hother : IsNotFound err = false)
    (h : Event.get .service ns name (some err) ∈ (Reconcile env s request).trace) :
    ∃ inst, findDatabase s request.Namespace request.Name = some inst ∧
      (Reconcile env s request).store = s.withStatus (withDBName inst (dbName inst)) ∧
      findDatabase (Reconcile env s request).store request.Namespace request.Name
        = some (withDBName inst (dbName inst)) := by
  revert h
  let P : Run → Prop := fun r =>
    Event.get .service ns name (some err) ∈ r.trace →
    ∃ inst, findDatabase s request.Namespace request.Name = some inst ∧
      r.store = s.withStatus (withDBName inst (dbName inst)) ∧
      findDatabase r.store request.Namespace request.Name
        = some (withDBName inst (dbName inst))
  show P _
  apply Reconcile_cases env s request
  · intro inst hinst hns hname hfi
    apply ensureDeployment_cases env s _ inst _ _ rfl
    · intro dep hdep hgd hud hdb
      apply ensureService_cases env _ _ _ _ _ rfl
      · intro svc port0 rest hsvc hports hgs hus hdb2
        apply ensureSecret_cases env _ _ _ _ _ rfl
        · intro sec hsec hgsec husec hdb3
          apply ensureConfigMap_cases env _ _ _ _ _ rfl
          · intro cm hcm hgcm
            apply persistConfigMap_cases
            case done =>
              intro hfu hdbp
              intro hmem; simp at hmem
            case updateErr =>
              intro e
              intro hmem; simp at hmem
          · intro e0 hnf0 hcm
            apply persistConfigMap_cases
            case done =>
              intro hfu hdbp
              intro hmem; simp at hmem
            case updateErr =>
              intro e
              intro hmem; simp at hmem
          case refErr =>
            intro e he
            intro hmem; simp at hmem
          case getErr =>
            intro e he hnf
            intro hmem; simp at hmem
          case createErr =>
            intro e0 e hnf
            intro hmem; simp at hmem
        case refErr =>
          intro e he
          intro hmem; simp at hmem
        case getErr =>
          intro e he hnf
          intro hmem; simp at hmem
        case createErr =>
          intro e0 e hnf
          intro hmem; simp at hmem
        case created =>
          intro e0 hnf hfind
          intro hmem; simp at hmem
        case updateErr =>
          intro found e hfound
          intro hmem; simp at hmem
      case refErr =>
        intro e he
        intro hmem; simp at hmem
      case getErr =>
        intro e he hnf
        intro _; exact ⟨inst, hinst, by simp only [mapGet_initialData_name], by simp only [mapGet_initialData_name]; exact findDatabase_withStatus_found hinst rfl rfl⟩
      case createErr =>
        intro e0 e hnf
        intro hmem; simp at hmem; obtain ⟨-, -, rfl⟩ := hmem; simp [hother] at hnf
      case created =>
        intro e0 hnf hfind
        intro hmem; simp at hmem; obtain ⟨-, -, rfl⟩ := hmem; simp [hother] at hnf
      case panics =>
        intro found hfound hps
        intro hmem; simp at hmem
      case updateErr =>
        intro found p0 ps e hfound hps
        intro hmem; simp at hmem
    case refErr =>
      intro e he
      intro hmem; simp at hmem
    case getErr =>
      intro e he hnf
      intro hmem; simp at hmem
    case createErr =>
      intro e0 e hnf
      intro hmem; simp at hmem
    case created =>
      intro e0 hnf hfind
      intro hmem; simp at hmem
    case updateErr =>
      intro found e hfound
      intro hmem; simp at hmem
  case absent =>
    intro e hnf hget
    intro hmem; simp at hmem
  case fetchErr =>
    intro e hnf he
    intro hmem; simp at hmem

/-- At a failing lookup of the Secret the store is that of before with the status writes of the
Deployment and Service stages applied to the Primary, in that order. -/
theorem secret_lookup_failure_store (env : Env) (s : Store) (request : Request)
    (ns name : String) (err : Err) (hother : IsNotFound err = false)
    (h : Event.get .secret ns name (some err) ∈ (Reconcile env s request).trace) :
    ∃ inst svc port0 rest,
      findDatabase s request.Namespace request.Name = some inst ∧
      findService s request.Namespace (request.Name ++ "-postgresql") = some svc ∧
      svc.Spec.Ports = port0 :: rest ∧
      (Reconcile env s request).store =
        (s.withStatus (withDBName inst (dbName inst))).withStatus
          (withConnection (withDBName inst (dbName inst)) svc.Spec.ClusterIP
            port0.TargetPort.IntVal) ∧
      findDatabase (Reconcile env s request).store request.Namespace request.Name
        = some (withConnection (withDBName inst (dbName inst)) svc.Spec.ClusterIP
            port0.TargetPort.IntVal) := by
  revert h
  let P : Run → Prop := fun r =>
    Event.get .secret ns name (some err) ∈ r.trace →
    ∃ inst svc port0 rest,
      findDatabase s request.Namespace request.Name = some inst ∧
      findService s request.Namespace (request.Name ++ "-postgresql") = some svc ∧
      svc.Spec.Ports = port0 :: rest ∧
      r.store =
        (s.withStatus (withDBName inst (dbName inst))).withStatus
          (withConnection (withDBName inst (dbName inst)) svc.Spec.ClusterIP
            port0.TargetPort.IntVal) ∧
      findDatabase r.store request.Namespace request.Name
        = some (withConnection (withDBName inst (dbName inst)) svc.Spec.ClusterIP
            port0.TargetPort.IntVal)
  show P _
  apply Reconcile_cases env s request
  · intro inst hinst hns hname hfi
    apply ensureDeployment_cases env s _ inst _ _ rfl
    · intro dep hdep hgd hud hdb
      apply ensureService_cases env _ _ _ _ _ rfl
      · intro svc port0 rest hsvc hports hgs hus hdb2
        apply ensureSecret_cases env _ _ _ _ _ rfl
        · intro sec hsec hgsec husec hdb3
          apply ensureConfigMap_cases env _ _ _ _ _ rfl
          · intro cm hcm hgcm
            apply persistConfigMap_cases
            case done =>
              intro hfu hdbp
              intro hmem; simp at hmem
            case updateErr =>
              intro e
              intro hmem; simp at hmem
          · intro e0 hnf0 hcm
            apply persistConfigMap_cases
            case done =>
              intro hfu hdbp
              intro hmem; simp at hmem
            case updateErr =>
              intro e
              intro hmem; simp at hmem
          case refErr =>
            intro e he
            intro hmem; simp at hmem
          case getErr =>
            intro e he hnf
            intro hmem; simp at hmem
          case createErr =>
            intro e0 e hnf
            intro hmem; simp at hmem
        case refErr =>
          intro e he
          intro hmem; simp at hmem
        case getErr =>
          intro e he hnf
          intro _; refine ⟨inst, svc, port0, rest, hinst, by rw [← hns, ← hname]; exact hsvc, hports, by simp only [mapGet_initialData_name], ?_⟩; simp only [mapGet_initialData_name]; exact findDatabase_withStatus_found (findDatabase_withStatus_found hinst rfl rfl) rfl rfl
        case createErr =>
          intro e0 e hnf
          intro hmem; simp at hmem; obtain ⟨-, -, rfl⟩ := hmem; simp [hother] at hnf
        case created =>
          intro e0 hnf hfind
          intro hmem; simp at hmem; obtain ⟨-, -, rfl⟩ := hmem; simp [hother] at hnf
        case updateErr =>
          intro found e hfound
          intro hmem; simp at hmem
      case refErr =>
        intro e he
        intro hmem; simp at hmem
      case getErr =>
        intro e he hnf
        intro hmem; simp at hmem
      case createErr =>
        intro e0 e hnf
        intro hmem; simp at hmem
      case created =>
        intro e0 hnf hfind
        intro hmem; simp at hmem
      case panics =>
        intro found hfound hps
        intro hmem; simp at hmem
      case updateErr =>
        intro found p0 ps e hfound hps
        intro hmem; simp at hmem
    case refErr =>
      intro e he
      intro hmem; simp at hmem
    case getErr =>
      intro e he hnf
      intro hmem; simp at hmem
    case createErr =>
      intro e0 e hnf
      intro hmem; simp at hmem
    case created =>
      intro e0 hnf hfind
      intro hmem; simp at hmem
    case updateErr =>
      intro found e hfound
      intro hmem; simp at hmem
  case absent =>
    intro e hnf hget
    intro hmem; simp at hmem
  case fetchErr =>
    intro e hnf he
    intro hmem; simp at hmem

/-- At a failing lookup of the ConfigMap the store is that of before with the status writes of
the Deployment, Service and Secret stages applied to the Primary, in that order. -/
theorem configMap_lookup_failure_store (env : Env) (s : Store) (request : Request)
    (ns name : String) (err : Err) (hother : IsNotFound err = false)
    (h : Event.get .configMap ns name (some err) ∈ (Reconcile env s request).trace) :
    ∃ inst svc port0 rest,
      findDatabase s request.Namespace request.Name = some inst ∧
      findService s request.Namespace (request.Name ++ "-postgresql") = some svc ∧
      svc.Spec.Ports = port0 :: rest ∧
      (Reconcile env s request).store =
        ((s.withStatus (withDBName inst (dbName inst))).withStatus
          (withConnection (withDBName inst (dbName inst)) svc.Spec.ClusterIP
            port0.TargetPort.IntVal)).withStatus
          (withCredentials
            (withConnection (withDBName inst (dbName inst)) svc.Spec.ClusterIP
              port0.TargetPort.IntVal)
            (request.Name ++ "-postgresql")) ∧
      findDatabase (Reconcile env s request).store request.Namespace request.Name
        = some (withCredentials
            (withConnection (withDBName inst (dbName inst)) svc.Spec.ClusterIP
              port0.TargetPort.IntVal)
            (request.Name ++ "-postgresql")) := by
  revert h
  let P : Run → Prop := fun r =>
    Event.get .configMap ns name (some err) ∈ r.trace →
    ∃ inst svc port0 rest,
      findDatabase s request.Namespace request.Name = some inst ∧
      findService s request.Namespace (request.Name ++ "-postgresql") = some svc ∧
      svc.Spec.Ports = port0 :: rest ∧
      r.store =
        ((s.withStatus (withDBName inst (dbName inst))).withStatus
          (withConnection (withDBName inst (dbName inst)) svc.Spec.ClusterIP
            port0.TargetPort.IntVal)).withStatus
          (withCredentials
            (withConnection (withDBName inst (dbName inst)) svc.Spec.ClusterIP
              port0.TargetPort.IntVal)
            (request.Name ++ "-postgresql")) ∧
      findDatabase r.store request.Namespace request.Name
        = some (withCredentials
            (withConnection (withDBName inst (dbName inst)) svc.Spec.ClusterIP
              port0.TargetPort.IntVal)
            (request.Name ++ "-postgresql"))
  show P _
  apply Reconcile_cases env s request
  · intro inst hinst hns hname hfi
    apply ensureDeployment_cases env s _ inst _ _ rfl
    · intro dep hdep hgd hud hdb
      apply ensureService_cases env _ _ _ _ _ rfl
      · intro svc port0 rest hsvc hports hgs hus hdb2
        apply ensureSecret_cases env _ _ _ _ _ rfl
        · intro sec hsec hgsec husec hdb3
          apply ensureConfigMap_cases env _ _ _ _ _ rfl
          · intro cm hcm hgcm
            apply persistConfigMap_cases
            case done =>
              intro hfu hdbp
              intro hmem; simp at hmem
            case updateErr =>
              intro e
              intro hmem; simp at hmem
          · intro e0 hnf0 hcm
            apply persistConfigMap_cases
            case done =>
              intro hfu hdbp
              intro hmem; simp at hmem; obtain ⟨-, -, rfl⟩ := hmem; simp [hother] at hnf0
            case updateErr =>
              intro e
              intro hmem; simp at hmem; obtain ⟨-, -, rfl⟩ := hmem; simp [hother] at hnf0
          case refErr =>
            intro e he
            intro hmem; simp at hmem
          case getErr =>
            intro e he hnf
            intro _; have hi : findDatabase s request.Namespace inst.Name = some inst := (by rw [hname]; exact hinst); refine ⟨inst, svc, port0, rest, hinst, by rw [← hns, ← hname]; exact hsvc, hports, by simp [mapGet_initialData_name, hname], ?_⟩; simp only [mapGet_initialData_name, ← hname]; exact findDatabase_withStatus_found (findDatabase_withStatus_found (findDatabase_withStatus_found hi rfl rfl) rfl rfl) rfl rfl
          case createErr =>
            intro e0 e hnf
            intro hmem; simp at hmem; obtain ⟨-, -, rfl⟩ := hmem; simp [hother] at hnf
        case refErr =>
          intro e he
          intro hmem; simp at hmem
        case getErr =>
          intro e he hnf
          intro hmem; simp at hmem
        case createErr =>
          intro e0 e hnf
          intro hmem; simp at hmem
        case created =>
          intro e0 hnf hfind
          intro hmem; simp at hmem
        case updateErr =>
          intro found e hfound
          intro hmem; simp at hmem
      case refErr =>
        intro e he
        intro hmem; simp at hmem
      case getErr =>
        intro e he hnf
        intro hmem; simp at hmem
      case createErr =>
        intro e0 e hnf
        intro hmem; simp at hmem
      case created =>
        intro e0 hnf hfind
        intro hmem; simp at hmem
      case panics =>
        intro found hfound hps
        intro hmem; simp at hmem
      case updateErr =>
        intro found p0 ps e hfound hps
        intro hmem; simp at hmem
    case refErr =>
      intro e he
      intro hmem; simp at hmem
    case getErr =>
      intro e he hnf
      intro hmem; simp at hmem
    case createErr =>
      intro e0 e hnf
      intro hmem; simp at hmem
    case created =>
      intro e0 hnf hfind
      intro hmem; simp at hmem
    case updateErr =>
      intro found e hfound
      intro hmem; simp at hmem
  case absent =>
    intro e hnf hget
    intro hmem; simp at hmem
  case fetchErr =>
    intro e hnf he
    intro hmem; simp at hmem

/-- A failing lookup of a child ends the invocation: it is the last call, its error is returned
with requeue = false, no create call is made and the children in the store are those of before;
at the Deployment the whole store is as before. -/
theorem lookup_failure_frame (env : Env) (s : Store) (request : Request)
    (kind : Kind) (ns name : String) (err : Err)
    (hk : kind ≠ .database) (hnf : IsNotFound err = false)
    (h : Event.get kind ns name (some err) ∈ (Reconcile env s request).trace) :
    (Reconcile env s request).outcome = .ret false (some err) ∧
    (Reconcile env s request).trace.getLast? = some (.get kind ns name (some err)) ∧
    (∀ c r, Event.create c r ∉ (Reconcile env s request).trace) ∧
    (Reconcile env s request).store.deployments = s.deployments ∧
    (Reconcile env s request).store.services = s.services ∧
    (Reconcile env s request).store.secrets = s.secrets ∧
    (Reconcile env s request).store.configMaps = s.configMaps ∧
    (kind = .deployment → (Reconcile env s request).store = s) := by
  revert h
  let P : Run → Prop := fun r =>
    Event.get kind ns name (some err) ∈ r.trace →
      r.outcome = .ret false (some err) ∧
      r.trace.getLast? = some (.get kind ns name (some err)) ∧
      (∀ c e, Event.create c e ∉ r.trace) ∧
      r.store.deployments = s.deployments ∧ r.store.services = s.services ∧
      r.store.secrets = s.secrets ∧ r.store.configMaps = s.configMaps ∧
      (kind = .deployment → r.store = s)
  show P _
  apply Reconcile_cases env s request
  · intro inst hinst hns hname hfi
    apply ensureDeployment_cases env s _ inst _ _ rfl
    · intro dep hdep hgd hud hdb
      apply ensureService_cases env _ _ _ _ _ rfl
      · intro svc port0 rest hsvc hports hgs hus hdb2
        apply ensureSecret_cases env _ _ _ _ _ rfl
        · intro sec hsec hgsec husec hdb3
          apply ensureConfigMap_cases env _ _ _ _ _ rfl
          · intro cm hcm hgcm
            apply persistConfigMap_cases
            all_goals (intros; simp [P]; try (intros; simp_all); try (intro hx; subst hx; simp_all))
          · intro e0 hnf0 hcm
            apply persistConfigMap_cases
            all_goals (intros; simp [P]; try (intros; simp_all); try (intro hx; subst hx; simp_all))
          all_goals (intros; simp [P]; try (intros; simp_all); try (intro hx; subst hx; simp_all))
        all_goals (intros; simp [P]; try (intros; simp_all); try (intro hx; subst hx; simp_all))
      all_goals (intros; simp [P]; try (intros; simp_all); try (intro hx; subst hx; simp_all))
    all_goals (intros; simp [P]; try (intros; simp_all); try (intro hx; subst hx; simp_all))
  all_goals (intros; simp [P]; try (intros; simp_all); try (intro hx; subst hx; simp_all))


/-- C6, as the code does not behave: with the Deployment present and the status still empty, a
failing lookup of the Service makes `Reconcile` return that error, yet the store has changed,
because `status.dbName` was persisted before the lookup. -/
theorem service_lookup_failure_after_status_write :
    Event.get .service "default" "pgdb1-postgresql" (some (.other 1))
      ∈ (Reconcile serviceLookupFails (storeAfter 1) coldRequest).trace ∧
    IsNotFound (.other 1) = false ∧
    (Reconcile serviceLookupFails (storeAfter 1) coldRequest).outcome
      = .ret false (some (.other 1)) ∧
    (Reconcile serviceLookupFails (storeAfter 1) coldRequest).store ≠ storeAfter 1 := by
  decide

/-- C6, amended.  If the lookup of a child returns an error that is not not-found, that lookup
is the last call of the invocation, `Reconcile` returns that same error with requeue = false,
no create call is made, and the Deployments, Services, Secrets and ConfigMaps in the store are
those of before.  The persisted status of the Primary depends on the stage of the failing
lookup: at the Deployment the whole store, the status included, is as before; at the Service
the store is that of before with the status write of the Deployment stage (`dbName`) applied;
at the Secret, with the writes of the Deployment and Service stages (`dbName`, then the
connection address and port of the Service found) applied; at the ConfigMap, with the writes of
the Deployment, Service and Secret stages (then the credentials reference) applied.  In each
case the Primary read back from the store carries exactly these writes. -/
theorem lookup_failure_returns_error (env : Env) (s : Store) (request : Request)
    (kind : Kind) (ns name : String) (err : Err)
    (hk : kind ≠ .database) (hnf : IsNotFound err = false)
    (h : Event.get kind ns name (some err) ∈ (Reconcile env s request).trace) :
    (Reconcile env s request).outcome = .ret false (some err) ∧
    (Reconcile env s request).trace.getLast? = some (.get kind ns name (some err)) ∧
    (∀ c r, Event.create c r ∉ (Reconcile env s request).trace) ∧
    (Reconcile env s request).store.deployments = s.deployments ∧
    (Reconcile env s request).store.services = s.services ∧
    (Reconcile env s request).store.secrets = s.secrets ∧
    (Reconcile env s request).store.configMaps = s.configMaps ∧
    (kind = .deployment → (Reconcile env s request).store = s) ∧
    (kind = .service → ∃ inst, findDatabase s request.Namespace request.Name = some inst ∧
      (Reconcile env s request).store = s.withStatus (withDBName inst (dbName inst)) ∧
      findDatabase (Reconcile env s request).store request.Namespace request.Name
        = some (withDBName inst (dbName inst))) ∧
    (kind = .secret → ∃ inst svc port0 rest,
      findDatabase s request.Namespace request.Name = some inst ∧
      findService s request.Namespace (request.Name ++ "-postgresql") = some svc ∧
      svc.Spec.Ports = port0 :: rest ∧
      (Reconcile env s request).store =
        (s.withStatus (withDBName inst (dbName inst))).withStatus
          (withConnection (withDBName inst (dbName inst)) svc.Spec.ClusterIP
            port0.TargetPort.IntVal) ∧
      findDatabase (Reconcile env s request).store request.Namespace request.Name
        = some (withConnection (withDBName inst (dbName inst)) svc.Spec.ClusterIP
            port0.TargetPort.IntVal)) ∧
    (kind = .configMap → ∃ inst svc port0 rest,
      findDatabase s request.Namespace request.Name = some inst ∧
      findService s request.Namespace (request.Name ++ "-postgresql") = some svc ∧
      svc.Spec.Ports = port0 :: rest ∧
      (Reconcile env s request).store =
        ((s.withStatus (withDBName inst (dbName inst))).withStatus
          (withConnection (withDBName inst (dbName inst)) svc.Spec.ClusterIP
            port0.TargetPort.IntVal)).withStatus
          (withCredentials
            (withConnection (withDBName inst (dbName inst)) svc.Spec.ClusterIP
              port0.TargetPort.IntVal)
            (request.Name ++ "-postgresql")) ∧
      findDatabase (Reconcile env s request).store request.Namespace request.Name
        = some (withCredentials
            (withConnection (withDBName inst (dbName inst)) svc.Spec.ClusterIP
              port0.TargetPort.IntVal)
            (request.Name ++ "-postgresql"))) := by
  obtain ⟨h1, h2, h3, h4, h5, h6, h7, h8⟩ :=
    lookup_failure_frame env s request kind ns name err hk hnf h
  refine ⟨h1, h2, h3, h4, h5, h6, h7, h8, ?_, ?_, ?_⟩
  · intro hkind
    subst hkind
    exact service_lookup_failure_store env s request ns name err hnf h
  · intro hkind
    subst hkind
    exact secret_lookup_failure_store env s request ns name err hnf h
  · intro hkind
    subst hkind
    exact configMap_lookup_failure_store env s request ns name err hnf h

/-- C6, amended, at a failing lookup of the Service: the error is returned, the Services are
those of before, and the Primary read back carries the `dbName` written by the Deployment
stage. -/
theorem lookup_failure_returns_error_witness :
    (Reconcile serviceLookupFails (storeAfter 1) coldRequest).outcome
      = .ret false (some (.other 1)) ∧
    (Reconcile serviceLookupFails (storeAfter 1) coldRequest).store.services
      = (storeAfter 1).services ∧
    ∃ inst, findDatabase (storeAfter 1) coldRequest.Namespace coldRequest.Name = some inst ∧
      (Reconcile serviceLookupFails (storeAfter 1) coldRequest).store
        = (storeAfter 1).withStatus (withDBName inst (dbName inst)) ∧
      findDatabase (Reconcile serviceLookupFails (storeAfter 1) coldRequest).store
        coldRequest.Namespace coldRequest.Name = some (withDBName inst (dbName inst)) :=
  have h := lookup_failure_returns_error serviceLookupFails (storeAfter 1) coldRequest .service
    "default" "pgdb1-postgresql" (.other 1) (by decide) (by decide) (by decide)
  ⟨h.1, h.2.2.2.2.1, h.2.2.2.2.2.2.2.2.1 rfl⟩

/-- In the cold-start scenario, a failing lookup of the Secret in the third invocation leaves
the connection address and port, written by the Service stage of that invocation, persisted. -/
theorem secret_lookup_failure_after_status_writes :
    Event.get .secret "default" "pgdb1-postgresql" (some (.other 1))
      ∈ (Reconcile secretLookupFails (storeAfter 2) coldRequest).trace ∧
    statusAfter 2 = some ⟨"postgres", "", 0, "", ""⟩ ∧
    (findDatabase (Reconcile secretLookupFails (storeAfter 2) coldRequest).store
        "default" "pgdb1").map (fun d => d.Status)
      = some ⟨"postgres", "10.0.0.5", 5432, "", ""⟩ := by
  decide

/-- In the cold-start scenario, a failing lookup of the ConfigMap in the fourth invocation
leaves the credentials reference, written by the Secret stage of that invocation, persisted. -/
theorem configMap_lookup_failure_after_status_writes :
    Event.get .configMap "default" "pgdb1" (some (.other 1))
      ∈ (Reconcile configMapLookupFails (storeAfter 3) coldRequest).trace ∧
    statusAfter 3 = some ⟨"postgres", "10.0.0.5", 5432, "", ""⟩ ∧
    (findDatabase (Reconcile configMapLookupFails (storeAfter 3) coldRequest).store
        "default" "pgdb1").map (fun d => d.Status)
      = some ⟨"postgres", "10.0.0.5", 5432, "pgdb1-postgresql", ""⟩ := by
  decide

/-- C7 (status is only set after the child is confirmed).  For every Primary in the store, if
an invocation changes a persisted status field, the corresponding child is in the store after
the invocation: the Deployment for `dbName`, the Service for the connection address and port,
the Secret for `credentialsRef`, the ConfigMap for `configRef`. -/
theorem status_change_implies_child (env : Env) (s : Store) (request : Request)
    (ns name : String) (d d' : Database)
    (hd : findDatabase s ns name = some d)
    (hd' : findDatabase (Reconcile env s request).store ns name = some d') :
    (d'.Status.DBName ≠ d.Status.DBName →
      (findDeployment (Reconcile env s request).store d.Namespace
        (d.Name ++ "-postgresql")).isSome = true) ∧
    (d'.Status.DBConnectionIP ≠ d.Status.DBConnectionIP ∨
        d'.Status.DBConnectionPort ≠ d.Status.DBConnectionPort →
      (findService (Reconcile env s request).store d.Namespace
        (d.Name ++ "-postgresql")).isSome = true) ∧
    (d'.Status.DBCredentials ≠ d.Status.DBCredentials →
      (findSecret (Reconcile env s request).store d.Namespace
        (d.Name ++ "-postgresql")).isSome = true) ∧
    (d'.Status.DBConfigMap ≠ d.Status.DBConfigMap →
      (findConfigMap (Reconcile env s request).store d.Namespace d.Name).isSome = true) := by
  by_cases hkey : ns = request.Namespace ∧ name = request.Name
  · obtain ⟨rfl, rfl⟩ := hkey
    obtain ⟨hdns, hdname⟩ := findDatabase_name hd
    revert hd'
    let P : Run → Prop := fun r =>
      findDatabase r.store request.Namespace request.Name = some d' →
        (d'.Status.DBName ≠ d.Status.DBName →
          (findDeployment r.store d.Namespace (d.Name ++ "-postgresql")).isSome = true) ∧
        (d'.Status.DBConnectionIP ≠ d.Status.DBConnectionIP ∨
            d'.Status.DBConnectionPort ≠ d.Status.DBConnectionPort →
          (findService r.store d.Namespace (d.Name ++ "-postgresql")).isSome = true) ∧
        (d'.Status.DBCredentials ≠ d.Status.DBCredentials →
          (findSecret r.store d.Namespace (d.Name ++ "-postgresql")).isSome = true) ∧
        (d'.Status.DBConfigMap ≠ d.Status.DBConfigMap →
          (findConfigMap r.store d.Namespace d.Name).isSome = true)
    show P _
    apply Reconcile_cases env s request
    · intro inst hinst hns hname hfi
      apply ensureDeployment_cases env s _ inst _ _ rfl
      · intro dep hdep hgd hud hdb
        apply ensureService_cases env _ _ _ _ _ rfl
        · intro svc port0 rest hsvc hports hgs hus hdb2
          apply ensureSecret_cases env _ _ _ _ _ rfl
          · intro sec hsec hgsec husec hdb3
            apply ensureConfigMap_cases env _ _ _ _ _ rfl
            · intro cm hcm hgcm
              apply persistConfigMap_cases
              all_goals (intros; have hid : d = inst := Option.some.inj (hd.symm.trans hinst); subst hid; simp [P, findDatabase_withStatus, hd]; rintro rfl; simp_all)
            · intro e0 hnf0 hcm
              apply persistConfigMap_cases
              all_goals (intros; have hid : d = inst := Option.some.inj (hd.symm.trans hinst); subst hid; simp [P, findDatabase_withStatus, hd]; try (rintro rfl; simp_all [findConfigMap_addConfigMap, newConfigMapForCr]))
            all_goals (intros; have hid : d = inst := Option.some.inj (hd.symm.trans hinst); subst hid; simp [P, findDatabase_withStatus, hd]; rintro rfl; simp_all)
          all_goals (intros; have hid : d = inst := Option.some.inj (hd.symm.trans hinst); subst hid; simp [P, findDatabase_withStatus, hd]; rintro rfl; simp_all)
        all_goals (intros; have hid : d = inst := Option.some.inj (hd.symm.trans hinst); subst hid; simp [P, findDatabase_withStatus, hd]; rintro rfl; simp_all)
      all_goals (intros; have hid : d = inst := Option.some.inj (hd.symm.trans hinst); subst hid; simp [P, findDatabase_withStatus, hd]; rintro rfl; simp_all)
    all_goals (intros; simp [P, hd]; rintro rfl; simp)
  · have hsame := reconcile_other_primaries env s request ns name hkey
    rw [hsame, hd] at hd'
    cases hd'
    simp

/-- C7, at the second invocation of the cold-start scenario, which persists `dbName`. -/
theorem status_change_implies_child_witness :
    (withDBName pgdb1 "postgres").Status.DBName ≠ pgdb1.Status.DBName ∧
    (findDeployment (coldRun 2).store "default" "pgdb1-postgresql").isSome = true :=
  ⟨by decide,
    (status_change_implies_child coldEnv (storeAfter 1) coldRequest "default" "pgdb1" pgdb1
      (withDBName pgdb1 "postgres") (by decide) (by decide)).1 (by decide)⟩

/-- C8 (ownership).  Every object that `Reconcile` hands to a create call carries as its owner
references the controller reference to the fetched Primary, which names it by name and uid; and
if setting the owner reference fails, that is the last call of the invocation, `Reconcile`
returns that error, and no create call is made. -/
theorem created_children_are_owned (env : Env) (s : Store) (request : Request) :
    (∀ c r, Event.create c r ∈ (Reconcile env s request).trace →
      ∃ inst, findDatabase s request.Namespace request.Name = some inst ∧
        c.ownerReferences = [NewControllerRef env.scheme inst] ∧
        (NewControllerRef env.scheme inst).controller = true ∧
        (NewControllerRef env.scheme inst).name = request.Name ∧
        (NewControllerRef env.scheme inst).uid = inst.UID) ∧
    (∀ k e, Event.setControllerReference k (some e) ∈ (Reconcile env s request).trace →
      (Reconcile env s request).outcome = .ret false (some e) ∧
      (Reconcile env s request).trace.getLast? = some (.setControllerReference k (some e)) ∧
      ∀ c r, Event.create c r ∉ (Reconcile env s request).trace) := by
  let P : Run → Prop := fun run =>
    (∀ c r, Event.create c r ∈ run.trace →
      ∃ inst, findDatabase s request.Namespace request.Name = some inst ∧
        c.ownerReferences = [NewControllerRef env.scheme inst] ∧
        (NewControllerRef env.scheme inst).controller = true ∧
        (NewControllerRef env.scheme inst).name = request.Name ∧
        (NewControllerRef env.scheme inst).uid = inst.UID) ∧
    (∀ k e, Event.setControllerReference k (some e) ∈ run.trace →
      run.outcome = .ret false (some e) ∧
      run.trace.getLast? = some (.setControllerReference k (some e)) ∧
      ∀ c r, Event.create c r ∉ run.trace)
  show P _
  apply Reconcile_cases env s request
  · intro inst hinst hns hname hfi
    apply ensureDeployment_cases env s _ inst _ _ rfl
    · intro dep hdep hgd hud hdb
      apply ensureService_cases env _ _ _ _ _ rfl
      · intro svc port0 rest hsvc hports hgs hus hdb2
        apply ensureSecret_cases env _ _ _ _ _ rfl
        · intro sec hsec hgsec husec hdb3
          apply ensureConfigMap_cases env _ _ _ _ _ rfl
          · intro cm hcm hgcm
            apply persistConfigMap_cases
            all_goals (intros; simp [P]; try (intros; subst_vars; simp [hinst, hname, Child.ownerReferences, ownedBy, NewControllerRef]))
          · intro e0 hnf0 hcm
            apply persistConfigMap_cases
            all_goals (intros; simp [P]; try (intros; subst_vars; simp [hinst, hname, Child.ownerReferences, ownedBy, NewControllerRef]))
          all_goals (intros; simp [P]; try (intros; subst_vars; simp [hinst, hname, Child.ownerReferences, ownedBy, NewControllerRef]))
        all_goals (intros; simp [P]; try (intros; subst_vars; simp [hinst, hname, Child.ownerReferences, ownedBy, NewControllerRef]))
      all_goals (intros; simp [P]; try (intros; subst_vars; simp [hinst, hname, Child.ownerReferences, ownedBy, NewControllerRef]))
    all_goals (intros; simp [P]; try (intros; subst_vars; simp [hinst, hname, Child.ownerReferences, ownedBy, NewControllerRef]))
  all_goals (intros; simp [P]; try (intros; subst_vars; simp [hinst, hname, Child.ownerReferences, ownedBy, NewControllerRef]))

/-- C8, at the first invocation of the cold-start scenario and at a failure to set the owner
of the Service. -/
theorem created_children_are_owned_witness :
    coldDeployment.OwnerReferences = [NewControllerRef coldEnv.scheme pgdb1] ∧
    (Reconcile ownerOfServiceFails (storeAfter 1) coldRequest).outcome
      = .ret false (some (.other 3)) :=
  ⟨rfl,
    ((created_children_are_owned ownerOfServiceFails (storeAfter 1) coldRequest).2 .service
      (.other 3) (by decide)).1⟩

/-- C9 (status persistence failure).  If a status update fails, it is the last call of the
invocation and `Reconcile` returns that error with requeue = false; the Deployments, Services
and Secrets in the store are those of before, and so are the ConfigMaps, but for the one the
same invocation may have created just before the update. -/
theorem status_update_failure_returns_error (env : Env) (s : Store) (request : Request)
    (inst : Database) (e : Err)
    (h : Event.statusUpdate inst (some e) ∈ (Reconcile env s request).trace) :
    (Reconcile env s request).outcome = .ret false (some e) ∧
    (Reconcile env s request).trace.getLast? = some (.statusUpdate inst (some e)) ∧
    (Reconcile env s request).store.deployments = s.deployments ∧
    (Reconcile env s request).store.services = s.services ∧
    (Reconcile env s request).store.secrets = s.secrets ∧
    s.configMaps <+: (Reconcile env s request).store.configMaps ∧
    ((∀ c, Event.create c none ∉ (Reconcile env s request).trace) →
      (Reconcile env s request).store.configMaps = s.configMaps) := by
  revert h
  let P : Run → Prop := fun r =>
    Event.statusUpdate inst (some e) ∈ r.trace →
      r.outcome = .ret false (some e) ∧
      r.trace.getLast? = some (.statusUpdate inst (some e)) ∧
      r.store.deployments = s.deployments ∧ r.store.services = s.services ∧
      r.store.secrets = s.secrets ∧ s.configMaps <+: r.store.configMaps ∧
      ((∀ c, Event.create c none ∉ r.trace) → r.store.configMaps = s.configMaps)
  show P _
  apply Reconcile_cases env s request
  · intro inst hinst hns hname hfi
    apply ensureDeployment_cases env s _ inst _ _ rfl
    · intro dep hdep hgd hud hdb
      apply ensureService_cases env _ _ _ _ _ rfl
      · intro svc port0 rest hsvc hports hgs hus hdb2
        apply ensureSecret_cases env _ _ _ _ _ rfl
        · intro sec hsec hgsec husec hdb3
          apply ensureConfigMap_cases env _ _ _ _ _ rfl
          · intro cm hcm hgcm
            apply persistConfigMap_cases
            all_goals (intros; simp [P]; try (intros; subst_vars; simp))
          · intro e0 hnf0 hcm
            apply persistConfigMap_cases
            all_goals (intros; simp [P]; try (intros; subst_vars; simp))
          all_goals (intros; simp [P]; try (intros; subst_vars; simp))
        all_goals (intros; simp [P]; try (intros; subst_vars; simp))
      all_goals (intros; simp [P]; try (intros; subst_vars; simp))
    all_goals (intros; simp [P]; try (intros; subst_vars; simp))
  all_goals (intros; simp [P]; try (intros; subst_vars; simp))

/-- C9, at a failure of the status update that follows the lookup of the Deployment. -/
theorem status_update_failure_returns_error_witness :
    (Reconcile statusUpdateFails (storeAfter 1) coldRequest).outcome
      = .ret false (some (.other 2)) ∧
    (Reconcile statusUpdateFails (storeAfter 1) coldRequest).store.deployments
      = (storeAfter 1).deployments :=
  have h := status_update_failure_returns_error statusUpdateFails (storeAfter 1) coldRequest
    (withDBName pgdb1 "postgres") (.other 2) (by decide)
  ⟨h.1, h.2.2.1⟩

/-- C10 (default name resolution).  The database name of a Primary is `postgres` when
`spec.dbName` is empty, and `spec.dbName` itself otherwise. -/
theorem dbName_resolution (cr : Database) :
    (cr.Spec.DBName = "" → dbName cr = "postgres") ∧
    (cr.Spec.DBName ≠ "" → dbName cr = cr.Spec.DBName) := by
  unfold dbName
  constructor
  · intro h
    simp [h]
  · intro h
    simp [h]

/-- C10, at `spec.dbName = "app"` and at the empty `spec.dbName` of `pgdb1`. -/
theorem dbName_resolution_witness :
    dbName { pgdb1 with Spec := { pgdb1.Spec with DBName := "app" } } = "app" ∧
    dbName pgdb1 = "postgres" :=
  ⟨(dbName_resolution { pgdb1 with Spec := { pgdb1.Spec with DBName := "app" } }).2 (by decide),
    (dbName_resolution pgdb1).1 (by decide)⟩

/-! ## Further facts about the builders, the store and the runs -/

/-- The namespace and name that the builders give their object. -/
theorem builder_keys (cr : Database) (data : StrMap) :
    ((newDeploymentForCR cr data).Namespace = cr.Namespace ∧
      (newDeploymentForCR cr data).Name = cr.Name ++ "-postgresql") ∧
    ((newSecretForCR cr data).Namespace = cr.Namespace ∧
      (newSecretForCR cr data).Name = cr.Name ++ "-postgresql") ∧
    ((newConfigMapForCr cr data).Namespace = cr.Namespace ∧
      (newConfigMapForCr cr data).Name = cr.Name) :=
  ⟨⟨rfl, rfl⟩, ⟨rfl, rfl⟩, ⟨rfl, rfl⟩⟩

/-- The namespace and name that the Service builder gives its object. -/
theorem newServiceForCR_key (cr : Database) :
    (newServiceForCR cr).Namespace = cr.Namespace ∧
    (newServiceForCR cr).Name = cr.Name ++ "-postgresql" :=
  ⟨rfl, rfl⟩

theorem find?_isSome_of_prefix {α : Type} (p : α → Bool) {l l' : List α} (h : l <+: l')
    (hf : (l.find? p).isSome = true) : (l'.find? p).isSome = true := by
  obtain ⟨t, rfl⟩ := h
  cases hl : l.find? p with
  | none => rw [hl] at hf; cases hf
  | some x => simp [List.find?_append, hl]

theorem findService_addService_isSome {s : Store} {o : Service} {ns n : String}
    (h : (findService (s.addService o) ns n).isSome = true) :
    (findService s ns n).isSome = true ∨ (ns = o.Namespace ∧ n = o.Name) := by
  unfold findService Store.addService at *
  cases hl : s.services.find? (fun x => decide (x.Namespace = ns ∧ x.Name = n)) with
  | some x => exact Or.inl rfl
  | none =>
    right
    by_cases hk : o.Namespace = ns ∧ o.Name = n
    · exact ⟨hk.1.symm, hk.2.symm⟩
    · exfalso
      rw [List.find?_append, hl, List.find?_cons_of_neg _ (by simpa using hk)] at h
      simp at h

theorem findSecret_addSecret_isSome {s : Store} {o : Secret} {ns n : String}
    (h : (findSecret (s.addSecret o) ns n).isSome = true) :
    (findSecret s ns n).isSome = true ∨ (ns = o.Namespace ∧ n = o.Name) := by
  unfold findSecret Store.addSecret at *
  cases hl : s.secrets.find? (fun x => decide (x.Namespace = ns ∧ x.Name = n)) with
  | some x => exact Or.inl rfl
  | none =>
    right
    by_cases hk : o.Namespace = ns ∧ o.Name = n
    · exact ⟨hk.1.symm, hk.2.symm⟩
    · exfalso
      rw [List.find?_append, hl, List.find?_cons_of_neg _ (by simpa using hk)] at h
      simp at h

theorem findConfigMap_addConfigMap_isSome {s : Store} {o : ConfigMap} {ns n : String}
    (h : (findConfigMap (s.addConfigMap o) ns n).isSome = true) :
    (findConfigMap s ns n).isSome = true ∨ (ns = o.Namespace ∧ n = o.Name) := by
  unfold findConfigMap Store.addConfigMap at *
  cases hl : s.configMaps.find? (fun x => decide (x.Namespace = ns ∧ x.Name = n)) with
  | some x => exact Or.inl rfl
  | none =>
    right
    by_cases hk : o.Namespace = ns ∧ o.Name = n
    · exact ⟨hk.1.symm, hk.2.symm⟩
    · exfalso
      rw [List.find?_append, hl, List.find?_cons_of_neg _ (by simpa using hk)] at h
      simp at h

/-- The store keeps a Service under the namespace and name it was submitted with. -/
theorem allocate_key (ip : String) (o : Service) :
    (allocate ip o).Namespace = o.Namespace ∧ (allocate ip o).Name = o.Name ∧
    (allocate ip o).Spec.Ports = o.Spec.Ports := by
  unfold allocate
  split <;> exact ⟨rfl, rfl, rfl⟩

/-- The map `data` when the ConfigMap is built holds the five keys, with the values that the
status of the Primary and the constants give. -/
theorem data_at_configMap_stage (inst : Database) (ip : String) (port : Int) :
    mapSet (mapSet (initialData inst) DBHostKey ip) DBPortKey (toString port) =
      [("db.name", dbName inst), ("db.user", "postgres"), ("db.password", "password"),
        ("db.host", ip), ("db.port", toString port)] := by
  simp [initialData, mapSet, DBNameKey, DBUsernameKey, DBPasswordKey, DBHostKey, DBPortKey]

theorem dbName_congr {a b : Database} (h : a.Spec = b.Spec) : dbName a = dbName b := by
  unfold dbName
  rw [h]

theorem setStatus_setStatus (ns name : String) (st1 st2 : DatabaseStatus) :
    ∀ l : List Database,
      setStatus ns name st2 (setStatus ns name st1 l) = setStatus ns name st2 l
  | [] => rfl
  | o :: rest => by
    by_cases hk : o.Namespace = ns ∧ o.Name = name
    · simp [setStatus, hk]
    · simp [setStatus, hk, setStatus_setStatus ns name st1 st2 rest]

theorem setStatus_identity (ns name : String) (st : DatabaseStatus) :
    ∀ l : List Database,
      (setStatus ns name st l).map (fun d => (d.Namespace, d.Name, d.UID, d.Spec)) =
        l.map (fun d => (d.Namespace, d.Name, d.UID, d.Spec))
  | [] => rfl
  | o :: rest => by
    by_cases hk : o.Namespace = ns ∧ o.Name = name
    · simp [setStatus, hk]
    · simp [setStatus, hk, setStatus_identity ns name st rest]

/-- What an invocation leaves of the store: the children of before, in place, and the Primaries
of before up to the status of the requested one. -/
theorem reconcile_frame (env : Env) (s : Store) (request : Request) :
    s.deployments <+: (Reconcile env s request).store.deployments ∧
    s.services <+: (Reconcile env s request).store.services ∧
    s.secrets <+: (Reconcile env s request).store.secrets ∧
    s.configMaps <+: (Reconcile env s request).store.configMaps ∧
    (Reconcile env s request).store.databases.map (fun d => (d.Namespace, d.Name, d.UID, d.Spec))
      = s.databases.map (fun d => (d.Namespace, d.Name, d.UID, d.Spec)) ∧
    ((Reconcile env s request).store.databases = s.databases ∨
      ∃ st, (Reconcile env s request).store.databases
        = setStatus request.Namespace request.Name st s.databases) := by
  let P : Run → Prop := fun r =>
    s.deployments <+: r.store.deployments ∧ s.services <+: r.store.services ∧
    s.secrets <+: r.store.secrets ∧ s.configMaps <+: r.store.configMaps ∧
    r.store.databases.map (fun d => (d.Namespace, d.Name, d.UID, d.Spec))
      = s.databases.map (fun d => (d.Namespace, d.Name, d.UID, d.Spec)) ∧
    (r.store.databases = s.databases ∨
      ∃ st, r.store.databases = setStatus request.Namespace request.Name st s.databases)
  show P _
  apply Reconcile_cases env s request
  · intro inst hinst hns hname hfi
    apply ensureDeployment_cases env s _ inst _ _ rfl
    · intro dep hdep hgd hud hdb
      apply ensureService_cases env _ _ _ _ _ rfl
      · intro svc port0 rest hsvc hports hgs hus hdb2
        apply ensureSecret_cases env _ _ _ _ _ rfl
        · intro sec hsec hgsec husec hdb3
          apply ensureConfigMap_cases env _ _ _ _ _ rfl
          · intro cm hcm hgcm
            apply persistConfigMap_cases
            all_goals (intros; simp [P, Store.withStatus, hns, hname, setStatus_setStatus, setStatus_identity]; (try exact Or.inr ⟨_, rfl⟩))
          · intro e0 hnf0 hcm
            apply persistConfigMap_cases
            all_goals (intros; simp [P, Store.withStatus, hns, hname, setStatus_setStatus, setStatus_identity]; (try exact Or.inr ⟨_, rfl⟩))
          all_goals (intros; simp [P, Store.withStatus, hns, hname, setStatus_setStatus, setStatus_identity]; (try exact Or.inr ⟨_, rfl⟩))
        all_goals (intros; simp [P, Store.withStatus, hns, hname, setStatus_setStatus, setStatus_identity]; (try exact Or.inr ⟨_, rfl⟩))
      all_goals (intros; simp [P, Store.withStatus, hns, hname, setStatus_setStatus, setStatus_identity]; (try exact Or.inr ⟨_, rfl⟩))
    all_goals (intros; simp [P, Store.withStatus, hns, hname, setStatus_setStatus, setStatus_identity]; (try exact Or.inr ⟨_, rfl⟩))
  all_goals (intros; simp [P])

/-- A Service, Secret or ConfigMap that is in the store after an invocation was there before, or
it is the child of the requested Primary and the child of the kind before it was there. -/
theorem reconcile_new_child (env : Env) (s : Store) (request : Request) (ns n : String) :
    ((findService (Reconcile env s request).store ns n).isSome = true →
      (findService s ns n).isSome = true ∨
        (ns = request.Namespace ∧ n = request.Name ++ "-postgresql" ∧
          (findDeployment s ns n).isSome = true)) ∧
    ((findSecret (Reconcile env s request).store ns n).isSome = true →
      (findSecret s ns n).isSome = true ∨
        (ns = request.Namespace ∧ n = request.Name ++ "-postgresql" ∧
          (findService s ns n).isSome = true)) ∧
    ((findConfigMap (Reconcile env s request).store ns n).isSome = true →
      (findConfigMap s ns n).isSome = true ∨
        (ns = request.Namespace ∧ n = request.Name ∧
          (findSecret s ns (n ++ "-postgresql")).isSome = true)) := by
  revert ns n
  let P : Run → Prop := fun r => ∀ ns n : String,
    ((findService r.store ns n).isSome = true →
      (findService s ns n).isSome = true ∨
        (ns = request.Namespace ∧ n = request.Name ++ "-postgresql" ∧
          (findDeployment s ns n).isSome = true)) ∧
    ((findSecret r.store ns n).isSome = true →
      (findSecret s ns n).isSome = true ∨
        (ns = request.Namespace ∧ n = request.Name ++ "-postgresql" ∧
          (findService s ns n).isSome = true)) ∧
    ((findConfigMap r.store ns n).isSome = true →
      (findConfigMap s ns n).isSome = true ∨
        (ns = request.Namespace ∧ n = request.Name ∧
          (findSecret s ns (n ++ "-postgresql")).isSome = true))
  show P _
  apply Reconcile_cases env s request
  · intro inst hinst hns hname hfi
    apply ensureDeployment_cases env s _ inst _ _ rfl
    · intro dep hdep hgd hud hdb
      apply ensureService_cases env _ _ _ _ _ rfl
      · intro svc port0 rest hsvc hports hgs hus hdb2
        apply ensureSecret_cases env _ _ _ _ _ rfl
        · intro sec hsec hgsec husec hdb3
          apply ensureConfigMap_cases env _ _ _ _ _ rfl
          · intro cm hcm hgcm
            apply persistConfigMap_cases
            case done =>
              intro hfu hdbp
              simp only [P]; intro ns n; (try simp only [find_withStatus, find_addDeployment, find_addService, find_addSecret, find_addConfigMap]); exact ⟨Or.inl, Or.inl, Or.inl⟩
            case updateErr =>
              intro e
              simp only [P]; intro ns n; (try simp only [find_withStatus, find_addDeployment, find_addService, find_addSecret, find_addConfigMap]); exact ⟨Or.inl, Or.inl, Or.inl⟩
          · intro e0 hnf0 hcm
            apply persistConfigMap_cases
            case done =>
              intro hfu hdbp
              simp only [P]; intro ns n; (try simp only [find_withStatus, find_addDeployment, find_addService, find_addSecret, find_addConfigMap]); refine ⟨Or.inl, Or.inl, fun h => ?_⟩; rcases findConfigMap_addConfigMap_isSome h with h' | ⟨h1, h2⟩; (· exact Or.inl h'); (· simp only [builder_keys, withDBName_proj, withConnection_proj, withCredentials_proj] at h1 h2; subst h1 h2; simp only [find_withStatus, find_addDeployment, find_addService, find_addSecret, find_addConfigMap, withDBName_proj, withConnection_proj] at hsec; exact Or.inr ⟨hns, hname, by rw [hsec]; rfl⟩)
            case updateErr =>
              intro e
              simp only [P]; intro ns n; (try simp only [find_withStatus, find_addDeployment, find_addService, find_addSecret, find_addConfigMap]); refine ⟨Or.inl, Or.inl, fun h => ?_⟩; rcases findConfigMap_addConfigMap_isSome h with h' | ⟨h1, h2⟩; (· exact Or.inl h'); (· simp only [builder_keys, withDBName_proj, withConnection_proj, withCredentials_proj] at h1 h2; subst h1 h2; simp only [find_withStatus, find_addDeployment, find_addService, find_addSecret, find_addConfigMap, withDBName_proj, withConnection_proj] at hsec; exact Or.inr ⟨hns, hname, by rw [hsec]; rfl⟩)
          case refErr =>
            intro e he
            simp only [P]; intro ns n; (try simp only [find_withStatus, find_addDeployment, find_addService, find_addSecret, find_addConfigMap]); exact ⟨Or.inl, Or.inl, Or.inl⟩
          case getErr =>
            intro e he hnf
            simp only [P]; intro ns n; (try simp only [find_withStatus, find_addDeployment, find_addService, find_addSecret, find_addConfigMap]); exact ⟨Or.inl, Or.inl, Or.inl⟩
          case createErr =>
            intro e0 e hnf
            simp only [P]; intro ns n; (try simp only [find_withStatus, find_addDeployment, find_addService, find_addSecret, find_addConfigMap]); exact ⟨Or.inl, Or.inl, Or.inl⟩
        case refErr =>
          intro e he
          simp only [P]; intro ns n; (try simp only [find_withStatus, find_addDeployment, find_addService, find_addSecret, find_addConfigMap]); exact ⟨Or.inl, Or.inl, Or.inl⟩
        case getErr =>
          intro e he hnf
          simp only [P]; intro ns n; (try simp only [find_withStatus, find_addDeployment, find_addService, find_addSecret, find_addConfigMap]); exact ⟨Or.inl, Or.inl, Or.inl⟩
        case createErr =>
          intro e0 e hnf
          simp only [P]; intro ns n; (try simp only [find_withStatus, find_addDeployment, find_addService, find_addSecret, find_addConfigMap]); exact ⟨Or.inl, Or.inl, Or.inl⟩
        case created =>
          intro e0 hnf hfind
          simp only [P]; intro ns n; (try simp only [find_withStatus, find_addDeployment, find_addService, find_addSecret, find_addConfigMap]); refine ⟨Or.inl, fun h => ?_, Or.inl⟩; rcases findSecret_addSecret_isSome h with h' | ⟨h1, h2⟩; (· exact Or.inl h'); (· simp only [builder_keys, withDBName_proj, withConnection_proj] at h1 h2; subst h1 h2; simp only [find_withStatus, find_addDeployment, find_addService, find_addSecret, find_addConfigMap, withDBName_proj] at hsvc; exact Or.inr ⟨hns, by rw [hname], by rw [hsvc]; rfl⟩)
        case updateErr =>
          intro found e hfound
          simp only [P]; intro ns n; (try simp only [find_withStatus, find_addDeployment, find_addService, find_addSecret, find_addConfigMap]); exact ⟨Or.inl, Or.inl, Or.inl⟩
      case refErr =>
        intro e he
        simp only [P]; intro ns n; (try simp only [find_withStatus, find_addDeployment, find_addService, find_addSecret, find_addConfigMap]); exact ⟨Or.inl, Or.inl, Or.inl⟩
      case getErr =>
        intro e he hnf
        simp only [P]; intro ns n; (try simp only [find_withStatus, find_addDeployment, find_addService, find_addSecret, find_addConfigMap]); exact ⟨Or.inl, Or.inl, Or.inl⟩
      case createErr =>
        intro e0 e hnf
        simp only [P]; intro ns n; (try simp only [find_withStatus, find_addDeployment, find_addService, find_addSecret, find_addConfigMap]); exact ⟨Or.inl, Or.inl, Or.inl⟩
      case created =>
        intro e0 hnf hfind
        simp only [P]; intro ns n; (try simp only [find_withStatus, find_addDeployment, find_addService, find_addSecret, find_addConfigMap]); refine ⟨fun h => ?_, Or.inl, Or.inl⟩; rcases findService_addService_isSome h with h' | ⟨h1, h2⟩; (· exact Or.inl h'); (· simp only [allocate_key, newServiceForCR_key, withDBName_proj] at h1 h2; subst h1 h2; exact Or.inr ⟨hns, by rw [hname], by rw [hdep]; rfl⟩)
      case panics =>
        intro found hfound hps
        simp only [P]; intro ns n; (try simp only [find_withStatus, find_addDeployment, find_addService, find_addSecret, find_addConfigMap]); exact ⟨Or.inl, Or.inl, Or.inl⟩
      case updateErr =>
        intro found p0 ps e hfound hps
        simp only [P]; intro ns n; (try simp only [find_withStatus, find_addDeployment, find_addService, find_addSecret, find_addConfigMap]); exact ⟨Or.inl, Or.inl, Or.inl⟩
    case refErr =>
      intro e he
      simp only [P]; intro ns n; (try simp only [find_withStatus, find_addDeployment, find_addService, find_addSecret, find_addConfigMap]); exact ⟨Or.inl, Or.inl, Or.inl⟩
    case getErr =>
      intro e he hnf
      simp only [P]; intro ns n; (try simp only [find_withStatus, find_addDeployment, find_addService, find_addSecret, find_addConfigMap]); exact ⟨Or.inl, Or.inl, Or.inl⟩
    case createErr =>
      intro e0 e hnf
      simp only [P]; intro ns n; (try simp only [find_withStatus, find_addDeployment, find_addService, find_addSecret, find_addConfigMap]); exact ⟨Or.inl, Or.inl, Or.inl⟩
    case created =>
      intro e0 hnf hfind
      simp only [P]; intro ns n; (try simp only [find_withStatus, find_addDeployment, find_addService, find_addSecret, find_addConfigMap]); exact ⟨Or.inl, Or.inl, Or.inl⟩
    case updateErr =>
      intro found e hfound
      simp only [P]; intro ns n; (try simp only [find_withStatus, find_addDeployment, find_addService, find_addSecret, find_addConfigMap]); exact ⟨Or.inl, Or.inl, Or.inl⟩
  case absent =>
    intro e hnf hget
    simp only [P]; intro ns n; (try simp only [find_withStatus, find_addDeployment, find_addService, find_addSecret, find_addConfigMap]); exact ⟨Or.inl, Or.inl, Or.inl⟩
  case fetchErr =>
    intro e hnf he
    simp only [P]; intro ns n; (try simp only [find_withStatus, find_addDeployment, find_addService, find_addSecret, find_addConfigMap]); exact ⟨Or.inl, Or.inl, Or.inl⟩

/-- Every ConfigMap handed to a create call has as payload the five pairs, with the values
that the constants and the persisted status of the Primary give. -/
theorem created_configMap_data (env : Env) (s : Store) (request : Request) :
    ∀ cm e, Event.create (.configMap cm) e ∈ (Reconcile env s request).trace →
      ∃ d, findDatabase (Reconcile env s request).store request.Namespace request.Name
          = some d ∧
        cm.Data =
          [("db.name", dbName d), ("db.user", "postgres"), ("db.password", "password"),
            ("db.host", d.Status.DBConnectionIP),
            ("db.port", toString d.Status.DBConnectionPort)] := by
  let P : Run → Prop := fun r =>
    ∀ cm e, Event.create (.configMap cm) e ∈ r.trace →
      ∃ d, findDatabase r.store request.Namespace request.Name = some d ∧
        cm.Data =
          [("db.name", dbName d), ("db.user", "postgres"), ("db.password", "password"),
            ("db.host", d.Status.DBConnectionIP),
            ("db.port", toString d.Status.DBConnectionPort)]
  show P _
  apply Reconcile_cases env s request
  · intro inst hinst hns hname hfi
    apply ensureDeployment_cases env s _ inst _ _ rfl
    · intro dep hdep hgd hud hdb
      apply ensureService_cases env _ _ _ _ _ rfl
      · intro svc port0 rest hsvc hports hgs hus hdb2
        apply ensureSecret_cases env _ _ _ _ _ rfl
        · intro sec hsec hgsec husec hdb3
          apply ensureConfigMap_cases env _ _ _ _ _ rfl
          · intro cm hcm hgcm
            apply persistConfigMap_cases
            all_goals (intros; simp [P])
          · intro e0 hnf0 hcm
            apply persistConfigMap_cases
            all_goals (intros; simp [P, findDatabase_withStatus, hinst, hns, hname, newConfigMapForCr, data_at_configMap_stage]; try exact dbName_congr rfl)
          all_goals (intros; simp [P, findDatabase_withStatus, hinst, hns, hname, newConfigMapForCr, data_at_configMap_stage]; (try (intros; subst_vars)); (try simp [newConfigMapForCr, data_at_configMap_stage]); (try exact dbName_congr rfl))
        all_goals (intros; simp [P])
      all_goals (intros; simp [P])
    all_goals (intros; simp [P])
  all_goals (intros; simp [P])

/-- An invocation keeps the children in order. -/
theorem childrenInOrder_step (env : Env) (s : Store) (request : Request)
    (h : childrenInOrder s) : childrenInOrder (Reconcile env s request).store := by
  intro ns p
  obtain ⟨hd, hs, hsec, _, _, _⟩ := reconcile_frame env s request
  refine ⟨fun hx => ?_, fun hx => ?_, fun hx => ?_⟩
  · rcases (reconcile_new_child env s request ns (p ++ "-postgresql")).1 hx with h' | ⟨_, _, h'⟩
    · exact find?_isSome_of_prefix _ hd ((h ns p).1 h')
    · exact find?_isSome_of_prefix _ hd h'
  · rcases (reconcile_new_child env s request ns (p ++ "-postgresql")).2.1 hx
      with h' | ⟨_, _, h'⟩
    · exact find?_isSome_of_prefix _ hs ((h ns p).2.1 h')
    · exact find?_isSome_of_prefix _ hs h'
  · rcases (reconcile_new_child env s request ns p).2.2 hx with h' | ⟨_, _, h'⟩
    · exact find?_isSome_of_prefix _ hsec ((h ns p).2.2 h')
    · exact find?_isSome_of_prefix _ hsec h'

/-- Any sequence of invocations keeps the children in order. -/
theorem childrenInOrder_reconcileAll :
    ∀ (steps : List (Env × Request)) (s : Store),
      childrenInOrder s → childrenInOrder (reconcileAll steps s)
  | [], _, h => h
  | (env, request) :: rest, s, h =>
    childrenInOrder_reconcileAll rest _ (childrenInOrder_step env s request h)

/-- A create call comes after the lookups of all the kinds before it found their object. -/
theorem create_after_found (env : Env) (s : Store) (request : Request) :
    ∀ (c : Child) (r : Option Err), Event.create c r ∈ (Reconcile env s request).trace →
      ∀ k, 1 ≤ k.rank → k.rank < c.kind.rank →
        k ∈ foundKinds (Reconcile env s request).trace := by
  let P : Run → Prop := fun run =>
    ∀ (c : Child) (r : Option Err), Event.create c r ∈ run.trace →
      ∀ k, 1 ≤ k.rank → k.rank < c.kind.rank → k ∈ foundKinds run.trace
  show P _
  apply Reconcile_cases env s request
  · intro inst hinst hns hname hfi
    apply ensureDeployment_cases env s _ inst _ _ rfl
    · intro dep hdep hgd hud hdb
      apply ensureService_cases env _ _ _ _ _ rfl
      · intro svc port0 rest hsvc hports hgs hus hdb2
        apply ensureSecret_cases env _ _ _ _ _ rfl
        · intro sec hsec hgsec husec hdb3
          apply ensureConfigMap_cases env _ _ _ _ _ rfl
          · intro cm hcm hgcm
            apply persistConfigMap_cases
            case done =>
              intro hfu hdbp
              simp [P, Child.kind, foundKinds]
            case updateErr =>
              intro e
              simp [P, Child.kind, foundKinds]
          · intro e0 hnf0 hcm
            apply persistConfigMap_cases
            case done =>
              intro hfu hdbp
              simp [P, Child.kind, foundKinds]; (try (intro k; cases k <;> simp [Kind.rank]))
            case updateErr =>
              intro e
              simp [P, Child.kind, foundKinds]; (try (intro k; cases k <;> simp [Kind.rank]))
          case refErr =>
            intro e he
            simp [P, Child.kind, foundKinds]
          case getErr =>
            intro e he hnf
            simp [P, Child.kind, foundKinds]
          case createErr =>
            intro e0 e hnf
            simp [P, Child.kind, foundKinds]; (try (intro k; cases k <;> simp [Kind.rank]))
        case refErr =>
          intro e he
          simp [P, Child.kind, foundKinds]
        case getErr =>
          intro e he hnf
          simp [P, Child.kind, foundKinds]
        case createErr =>
          intro e0 e hnf
          simp [P, Child.kind, foundKinds]; (try (intro k; cases k <;> simp [Kind.rank]))
        case created =>
          intro e0 hnf hfind
          simp [P, Child.kind, foundKinds]; (try (intro k; cases k <;> simp [Kind.rank]))
        case updateErr =>
          intro found e hfound
          simp [P, Child.kind, foundKinds]
      case refErr =>
        intro e he
        simp [P, Child.kind, foundKinds]
      case getErr =>
        intro e he hnf
        simp [P, Child.kind, foundKinds]
      case createErr =>
        intro e0 e hnf
        simp [P, Child.kind, foundKinds]; (try (intro k; cases k <;> simp [Kind.rank]))
      case created =>
        intro e0 hnf hfind
        simp [P, Child.kind, foundKinds]; (try (intro k; cases k <;> simp [Kind.rank]))
      case panics =>
        intro found hfound hps
        simp [P, Child.kind, foundKinds]
      case updateErr =>
        intro found p0 ps e hfound hps
        simp [P, Child.kind, foundKinds]
    case refErr =>
      intro e he
      simp [P, Child.kind, foundKinds]
    case getErr =>
      intro e he hnf
      simp [P, Child.kind, foundKinds]
    case createErr =>
      intro e0 e hnf
      simp [P, Child.kind, foundKinds]; (try (intro k; cases k <;> simp [Kind.rank]))
    case created =>
      intro e0 hnf hfind
      simp [P, Child.kind, foundKinds]; (try (intro k; cases k <;> simp [Kind.rank]))
    case updateErr =>
      intro found e hfound
      simp [P, Child.kind, foundKinds]
  case absent =>
    intro e hnf hget
    simp [P, Child.kind, foundKinds]
  case fetchErr =>
    intro e hnf he
    simp [P, Child.kind, foundKinds]

/-- From the Secret stage on, an invocation leaves the connection address, the connection port
and the database name in the persisted status of the Primary as they are. -/
theorem ensureSecret_keeps_connection (env : Env) (s : Store) (t : List Event) (inst : Database)
    (data : StrMap) (h : findDatabase s inst.Namespace inst.Name = some inst) :
    ∃ d, findDatabase (ensureSecret env s t inst data).store inst.Namespace inst.Name = some d ∧
      d.Status.DBConnectionIP = inst.Status.DBConnectionIP ∧
      d.Status.DBConnectionPort = inst.Status.DBConnectionPort ∧
      d.Status.DBName = inst.Status.DBName := by
  let P : Run → Prop := fun r =>
    ∃ d, findDatabase r.store inst.Namespace inst.Name = some d ∧
      d.Status.DBConnectionIP = inst.Status.DBConnectionIP ∧
      d.Status.DBConnectionPort = inst.Status.DBConnectionPort ∧
      d.Status.DBName = inst.Status.DBName
  show P _
  apply ensureSecret_cases env _ _ _ _ _ rfl
  · intro sec hsec hgsec husec hdb3
    apply ensureConfigMap_cases env _ _ _ _ _ rfl
    · intro cm hcm hgcm
      apply persistConfigMap_cases
      all_goals (intros; simp [P, findDatabase_withStatus, h])
    · intro e0 hnf0 hcm
      apply persistConfigMap_cases
      all_goals (intros; simp [P, findDatabase_withStatus, h])
    all_goals (intros; simp [P, findDatabase_withStatus, h])
  all_goals (intros; simp [P, findDatabase_withStatus, h])

/-! ## Printing and parsing an integer -/

theorem digitChar_facts : ∀ k : Nat, k < 10 →
    (Nat.digitChar k).toNat - '0'.toNat = k ∧ (Nat.digitChar k).isDigit = true := by
  intro k hk
  interval_cases k <;> decide

theorem foldl_toDigitsCore :
    ∀ (fuel n : Nat) (ds : List Char), n < fuel →
      List.foldl (fun a c => a * 10 + (c.toNat - '0'.toNat)) 0 (Nat.toDigitsCore 10 fuel n ds)
        = List.foldl (fun a c => a * 10 + (c.toNat - '0'.toNat)) n ds
  | 0, _, _, h => by omega
  | fuel + 1, n, ds, h => by
    unfold Nat.toDigitsCore
    have hd := (digitChar_facts (n % 10) (Nat.mod_lt _ (by decide))).1
    by_cases h0 : n / 10 = 0
    · simp only [h0, if_true, List.foldl_cons, Nat.zero_mul, Nat.zero_add, hd]
      have : n % 10 = n := Nat.mod_eq_of_lt (by omega)
      rw [this]
    · simp only [h0, if_false]
      rw [foldl_toDigitsCore fuel (n / 10) _ (by omega)]
      simp only [List.foldl_cons, hd]
      have : n / 10 * 10 + n % 10 = n := by omega
      rw [this]

theorem all_toDigitsCore :
    ∀ (fuel n : Nat) (ds : List Char), ds.all Char.isDigit = true →
      (Nat.toDigitsCore 10 fuel n ds).all Char.isDigit = true
  | 0, _, _, h => h
  | fuel + 1, n, ds, h => by
    unfold Nat.toDigitsCore
    have hd := (digitChar_facts (n % 10) (Nat.mod_lt _ (by decide))).2
    have h' : (Nat.digitChar (n % 10) :: ds).all Char.isDigit = true := by
      simp only [List.all_cons, hd, h, Bool.and_self]
    by_cases h0 : n / 10 = 0
    · simp only [h0, if_true]; exact h'
    · simp only [h0, if_false]; exact all_toDigitsCore fuel (n / 10) _ h'

theorem toDigitsCore_ne_nil :
    ∀ (fuel n : Nat) (ds : List Char), (0 < fuel ∨ ds ≠ []) → Nat.toDigitsCore 10 fuel n ds ≠ []
  | 0, _, ds, h => by
    rcases h with h | h
    · omega
    · exact h
  | fuel + 1, n, ds, _ => by
    unfold Nat.toDigitsCore
    by_cases h0 : n / 10 = 0
    · simp only [h0, if_true]; exact List.cons_ne_nil _ _
    · simp only [h0, if_false]
      exact toDigitsCore_ne_nil fuel (n / 10) _ (Or.inr (List.cons_ne_nil _ _))

/-- The decimal digits of a number: not empty, all digits, and read back they give the number. -/
theorem toDigits_facts (n : Nat) :
    Nat.toDigits 10 n ≠ [] ∧ (Nat.toDigits 10 n).all Char.isDigit = true ∧
    List.foldl (fun a c => a * 10 + (c.toNat - '0'.toNat)) 0 (Nat.toDigits 10 n) = n := by
  unfold Nat.toDigits
  refine ⟨toDigitsCore_ne_nil _ _ _ (Or.inl (by omega)), all_toDigitsCore _ _ _ rfl, ?_⟩
  rw [foldl_toDigitsCore _ _ _ (by omega)]
  rfl

theorem toNat?_repr (n : Nat) : (Nat.repr n).toNat? = some n := by
  obtain ⟨h1, h2, h3⟩ := toDigits_facts n
  have hne : (String.mk (Nat.toDigits 10 n)).isEmpty = false := by
    apply Bool.eq_false_iff.2
    intro h
    have hs := (String.isEmpty_iff _).1 h
    exact h1 (congrArg String.data hs)
  unfold String.toNat? String.isNat Nat.repr
  rw [String.all_eq, String.foldl_eq]
  simp only [List.asString, hne, Bool.not_false, Bool.true_and, h2, if_true, h3]

/-- The decimal string of an integer parses back to the integer. -/
theorem toInt?_toString (n : Int) : (toString n).toInt? = some n := by
  cases n with
  | ofNat m =>
    obtain ⟨h1, h2, h3⟩ := toDigits_facts m
    show (Nat.repr m).toInt? = some (Int.ofNat m)
    unfold String.toInt?
    have hget : (Nat.repr m).get 0 ≠ '-' := by
      unfold Nat.repr
      cases hl : Nat.toDigits 10 m with
      | nil => exact absurd hl h1
      | cons c cs =>
        have hc : c.isDigit = true := by
          rw [hl] at h2
          simp only [List.all_cons, Bool.and_eq_true] at h2
          exact h2.1
        have : (List.asString (c :: cs)).get 0 = c := String.get_of_valid [] (c :: cs)
        rw [this]
        intro hcontra
        rw [hcontra] at hc
        exact absurd hc (by decide)
    simp only [hget, if_false, toNat?_repr, Option.map_eq_map, Option.map_some']
  | negSucc m =>
    obtain ⟨h1, h2, h3⟩ := toDigits_facts (m + 1)
    show ("-" ++ Nat.repr (m + 1)).toInt? = some (Int.negSucc m)
    unfold String.toInt?
    have hs : "-" ++ Nat.repr (m + 1) = ⟨'-' :: Nat.toDigits 10 (m + 1)⟩ := rfl
    have hget : ("-" ++ Nat.repr (m + 1)).get 0 = '-' := by
      rw [hs]
      exact String.get_of_valid [] ('-' :: Nat.toDigits 10 (m + 1))
    have hv := (String.validFor_toSubstring ("-" ++ Nat.repr (m + 1))).drop 1
    rw [hs] at hv
    simp only [List.take, List.drop, List.nil_append] at hv
    have hnat : (("-" ++ Nat.repr (m + 1)).toSubstring.drop 1).toNat? = some (m + 1) := by
      unfold Substring.toNat? Substring.isNat
      rw [hs, hv.all, hv.foldl, h2, h3]
      rfl
    simp only [hget, if_true, hnat]
    rfl

/-! ## The claims on the builders, the frame and the stage order -/

/-- C11 (deterministic naming).  The Deployment, Service and Secret builders name their object
after the Primary name followed by `-postgresql`, the ConfigMap builder after the Primary name
alone; all four objects carry the namespace of the Primary and the single label `app` with the
Primary name; and a Primary of the same name and namespace, whatever its uid, spec and status,
and whatever the configuration set, gets the same names, namespaces and labels. -/
theorem builders_naming (cr : Database) (data : StrMap) :
    ((newDeploymentForCR cr data).Name = cr.Name ++ "-postgresql" ∧
      (newServiceForCR cr).Name = cr.Name ++ "-postgresql" ∧
      (newSecretForCR cr data).Name = cr.Name ++ "-postgresql" ∧
      (newConfigMapForCr cr data).Name = cr.Name) ∧
    ((newDeploymentForCR cr data).Namespace = cr.Namespace ∧
      (newServiceForCR cr).Namespace = cr.Namespace ∧
      (newSecretForCR cr data).Namespace = cr.Namespace ∧
      (newConfigMapForCr cr data).Namespace = cr.Namespace) ∧
    ((newDeploymentForCR cr data).Labels = [("app", cr.Name)] ∧
      (newServiceForCR cr).Labels = [("app", cr.Name)] ∧
      (newSecretForCR cr data).Labels = [("app", cr.Name)] ∧
      (newConfigMapForCr cr data).Labels = [("app", cr.Name)]) ∧
    ∀ (uid : String) (spec : DatabaseSpec) (status : DatabaseStatus) (data' : StrMap),
      (newDeploymentForCR ⟨cr.Name, cr.Namespace, uid, spec, status⟩ data').Name
          = (newDeploymentForCR cr data).Name ∧
        (newServiceForCR ⟨cr.Name, cr.Namespace, uid, spec, status⟩).Name
          = (newServiceForCR cr).Name ∧
        (newSecretForCR ⟨cr.Name, cr.Namespace, uid, spec, status⟩ data').Name
          = (newSecretForCR cr data).Name ∧
        (newConfigMapForCr ⟨cr.Name, cr.Namespace, uid, spec, status⟩ data').Name
          = (newConfigMapForCr cr data).Name :=
  ⟨⟨rfl, rfl, rfl, rfl⟩, ⟨rfl, rfl, rfl, rfl⟩, ⟨rfl, rfl, rfl, rfl⟩,
    fun _ _ _ _ => ⟨rfl, rfl, rfl, rfl⟩⟩

/-- C12 (ConfigStore payload).  When an invocation reaches the ConfigMap stage, it runs that
stage on a Primary and a configuration set for which the ConfigMap builder yields as payload
exactly the five pairs `db.name`, `db.user`, `db.password`, `db.host`, `db.port`, with the
values `dbName(primary)`, `postgres`, `password`, the persisted connection address and the
decimal string of the persisted connection port; and every ConfigMap handed to a create call
has this payload. -/
theorem configMap_payload (env : Env) (s : Store) (request : Request) :
    (∀ e, Event.setControllerReference .configMap e ∈ (Reconcile env s request).trace →
      ∃ s' t' inst' data' d,
        Reconcile env s request = ensureConfigMap env s' t' inst' data' ∧
        findDatabase s' request.Namespace request.Name = some d ∧
        (newConfigMapForCr inst' data').Data =
          [("db.name", dbName d), ("db.user", "postgres"), ("db.password", "password"),
            ("db.host", d.Status.DBConnectionIP),
            ("db.port", toString d.Status.DBConnectionPort)]) ∧
    (∀ cm e, Event.create (.configMap cm) e ∈ (Reconcile env s request).trace →
      ∃ d, findDatabase (Reconcile env s request).store request.Namespace request.Name
          = some d ∧
        cm.Data =
          [("db.name", dbName d), ("db.user", "postgres"), ("db.password", "password"),
            ("db.host", d.Status.DBConnectionIP),
            ("db.port", toString d.Status.DBConnectionPort)]) := by
  constructor
  · let P : Run → Prop := fun r =>
      ∀ e, Event.setControllerReference .configMap e ∈ r.trace →
        ∃ s' t' inst' data' d,
          r = ensureConfigMap env s' t' inst' data' ∧
          findDatabase s' request.Namespace request.Name = some d ∧
          (newConfigMapForCr inst' data').Data =
            [("db.name", dbName d), ("db.user", "postgres"), ("db.password", "password"),
              ("db.host", d.Status.DBConnectionIP),
              ("db.port", toString d.Status.DBConnectionPort)]
    show P _
    apply Reconcile_cases env s request
    · intro inst hinst hns hname hfi
      apply ensureDeployment_cases env s _ inst _ _ rfl
      · intro dep hdep hgd hud hdb
        apply ensureService_cases env _ _ _ _ _ rfl
        · intro svc port0 rest hsvc hports hgs hus hdb2
          apply ensureSecret_cases env _ _ _ _ _ rfl
          · intro sec hsec hgsec husec hdb3
            intro e _
            refine ⟨_, _, _, _,
              withCredentials
                (withConnection (withDBName inst (mapGet (initialData inst) DBNameKey))
                  svc.Spec.ClusterIP port0.TargetPort.IntVal)
                (inst.Name ++ "-postgresql"), rfl, ?_, ?_⟩
            · simp only [findDatabase_withStatus, hinst, Option.map_some', withDBName_proj,
                withConnection_proj, withCredentials_proj, and_self, if_true]
              rfl
            · simp [newConfigMapForCr, data_at_configMap_stage]
              exact dbName_congr rfl
          all_goals (intros; simp [P])
        all_goals (intros; simp [P])
      all_goals (intros; simp [P])
    all_goals (intros; simp [P])
  · exact created_configMap_data env s request

/-- C12, at the fourth invocation of the cold-start scenario, which creates the ConfigMap. -/
theorem configMap_payload_witness :
    Event.create (.configMap coldConfigMap) none
      ∈ (Reconcile coldEnv (storeAfter 3) coldRequest).trace ∧
    ∃ d, findDatabase (Reconcile coldEnv (storeAfter 3) coldRequest).store
        coldRequest.Namespace coldRequest.Name = some d ∧
      coldConfigMap.Data =
        [("db.name", dbName d), ("db.user", "postgres"), ("db.password", "password"),
          ("db.host", d.Status.DBConnectionIP),
          ("db.port", toString d.Status.DBConnectionPort)] :=
  ⟨by decide,
    (configMap_payload coldEnv (storeAfter 3) coldRequest).2 coldConfigMap none (by decide)⟩

/-- C13 (workload container contract).  The Deployment builder yields one replica, the update
strategy `Recreate`, the pod selector `app` = Primary name, and exactly one container, named
`spec.imageName` with image `spec.image`, exposing the single port 5432/TCP, with the four
environment entries `POSTGRES_USER`, `POSTGRES_PASSWORD`, `POSTGRES_DB` (the values of
`db.user`, `db.password`, `db.name` in the configuration set) and `PGDATA`, in this order. -/
theorem newDeploymentForCR_contract (cr : Database) (data : StrMap) :
    (newDeploymentForCR cr data).Spec.Replicas = some 1 ∧
    (newDeploymentForCR cr data).Spec.StrategyType = "Recreate" ∧
    (newDeploymentForCR cr data).Spec.SelectorMatchLabels = some [("app", cr.Name)] ∧
    (newDeploymentForCR cr data).Spec.Template.Containers =
      [ { Name := cr.Spec.ImageName
          Image := cr.Spec.Image
          ImagePullPolicy := "IfNotPresent"
          Ports := [{ ContainerPort := 5432, Protocol := "TCP" }]
          Env :=
            [ ⟨"POSTGRES_USER", mapGet data "db.user"⟩,
              ⟨"POSTGRES_PASSWORD", mapGet data "db.password"⟩,
              ⟨"POSTGRES_DB", mapGet data "db.name"⟩,
              ⟨"PGDATA", "/var/lib/postgresql/data/pgdata"⟩ ] } ] :=
  ⟨rfl, rfl, rfl, rfl⟩

/-- C14 (network endpoint contract).  The Service builder yields exactly one port mapping, with
protocol TCP, port 5432 and the integer target port 5432, and a selector that is exactly the
pair `app` = Primary name, which is also the label set of the pod template that the Deployment
builder yields for the same Primary. -/
theorem newServiceForCR_contract (cr : Database) (data : StrMap) :
    (newServiceForCR cr).Spec.Ports =
      [ { Name := cr.Name ++ "-postgresql"
          Port := 5432
          Protocol := "TCP"
          TargetPort := { Type_ := .Int, IntVal := 5432, StrVal := "" } } ] ∧
    (newServiceForCR cr).Spec.Selector = [("app", cr.Name)] ∧
    (newServiceForCR cr).Spec.Selector = (newDeploymentForCR cr data).Spec.Template.Labels :=
  ⟨rfl, rfl, rfl⟩

/-- C15 (CredentialStore contract).  The Secret builder yields a Secret of type `Opaque` whose
payload is exactly the two pairs `user` and `password`, holding the bytes of the values of
`db.user` and `db.password` in the configuration set; and every Secret handed to a create call
by `Reconcile` holds the bytes of the constants `postgres` and `password`, whatever the spec of
the Primary. -/
theorem secret_contract (env : Env) (s : Store) (request : Request) (cr : Database)
    (data : StrMap) :
    ((newSecretForCR cr data).Type_ = "Opaque" ∧
      (newSecretForCR cr data).Data =
        [("user", bytesOf (mapGet data "db.user")),
          ("password", bytesOf (mapGet data "db.password"))]) ∧
    (∀ sec r, Event.create (.secret sec) r ∈ (Reconcile env s request).trace →
      sec.Type_ = "Opaque" ∧
      sec.Data = [("user", bytesOf "postgres"), ("password", bytesOf "password")]) ∧
    bytesOf "postgres" = [112, 111, 115, 116, 103, 114, 101, 115] ∧
    bytesOf "password" = [112, 97, 115, 115, 119, 111, 114, 100] := by
  refine ⟨⟨rfl, rfl⟩, ?_, by decide, by decide⟩
  let P : Run → Prop := fun run =>
    ∀ sec r, Event.create (.secret sec) r ∈ run.trace →
      sec.Type_ = "Opaque" ∧
      sec.Data = [("user", bytesOf "postgres"), ("password", bytesOf "password")]
  show P _
  apply Reconcile_cases env s request
  · intro inst hinst hns hname hfi
    apply ensureDeployment_cases env s _ inst _ _ rfl
    · intro dep hdep hgd hud hdb
      apply ensureService_cases env _ _ _ _ _ rfl
      · intro svc port0 rest hsvc hports hgs hus hdb2
        apply ensureSecret_cases env _ _ _ _ _ rfl
        · intro sec hsec hgsec husec hdb3
          apply ensureConfigMap_cases env _ _ _ _ _ rfl
          · intro cm hcm hgcm
            apply persistConfigMap_cases
            all_goals (intros; simp [P])
          · intro e0 hnf0 hcm
            apply persistConfigMap_cases
            all_goals (intros; simp [P])
          all_goals (intros; simp [P])
        all_goals (intros; simp [P]; try (intros; subst_vars; simp [newSecretForCR, mapGet, mapSet, initialData, DBNameKey, DBUsernameKey, DBPasswordKey, DBHostKey, DBPortKey]))
      all_goals (intros; simp [P])
    all_goals (intros; simp [P])
  all_goals (intros; simp [P])

/-- C15, at the third invocation of the cold-start scenario, which creates the Secret. -/
theorem secret_contract_witness :
    Event.create (.secret coldSecret) none
      ∈ (Reconcile coldEnv (storeAfter 2) coldRequest).trace ∧
    coldSecret.Type_ = "Opaque" ∧
    coldSecret.Data = [("user", bytesOf "postgres"), ("password", bytesOf "password")] :=
  ⟨by decide,
    (secret_contract coldEnv (storeAfter 2) coldRequest pgdb1 []).2.1 coldSecret none
      (by decide)⟩

/-- C16 (the core never deletes).  After an invocation the Deployments, Services, Secrets and
ConfigMaps of before are all still in the store, unchanged and in place, possibly followed by
new ones; the Primaries are those of before with the same namespace, name, uid and spec, and
the list of Primaries is either the same or differs by the status of the requested Primary
alone; a Primary under another key is found as before. -/
theorem reconcile_never_deletes (env : Env) (s : Store) (request : Request) :
    s.deployments <+: (Reconcile env s request).store.deployments ∧
    s.services <+: (Reconcile env s request).store.services ∧
    s.secrets <+: (Reconcile env s request).store.secrets ∧
    s.configMaps <+: (Reconcile env s request).store.configMaps ∧
    (Reconcile env s request).store.databases.map (fun d => (d.Namespace, d.Name, d.UID, d.Spec))
      = s.databases.map (fun d => (d.Namespace, d.Name, d.UID, d.Spec)) ∧
    ((Reconcile env s request).store.databases = s.databases ∨
      ∃ st, (Reconcile env s request).store.databases
        = setStatus request.Namespace request.Name st s.databases) ∧
    ∀ ns name, ¬(ns = request.Namespace ∧ name = request.Name) →
      findDatabase (Reconcile env s request).store ns name = findDatabase s ns name := by
  obtain ⟨h1, h2, h3, h4, h5, h6⟩ := reconcile_frame env s request
  exact ⟨h1, h2, h3, h4, h5, h6,
    fun ns name h => reconcile_other_primaries env s request ns name h⟩

/-- C16, at the second invocation of the cold-start scenario and for a key without Primary. -/
theorem reconcile_never_deletes_witness :
    (storeAfter 1).deployments <+: (Reconcile coldEnv (storeAfter 1) coldRequest).store.deployments ∧
    findDatabase (Reconcile coldEnv (storeAfter 1) coldRequest).store "default" "other"
      = findDatabase (storeAfter 1) "default" "other" :=
  ⟨(reconcile_never_deletes coldEnv (storeAfter 1) coldRequest).1,
    (reconcile_never_deletes coldEnv (storeAfter 1) coldRequest).2.2.2.2.2.2 "default" "other"
      (by decide)⟩

/-- C17 (connection status from the found Service).  If the Primary, its Deployment and its
Service are found, the Service has a first port mapping, and the calls up to the status update
that follows the lookup of the Service succeed, then after the invocation the persisted status
of the Primary holds the cluster address of the found Service as connection address and the
integer target port of its first port mapping as connection port.  For a Service built by the
Service builder, as the store keeps it, that port is 5432 and equals the service port.  And in
every ConfigMap handed to a create call, the value of `db.port` is a decimal string that parses
back to the persisted connection port. -/
theorem connection_status_from_service (env : Env) (s : Store) (request : Request)
    (d : Database) (dep : Deployment) (svc : Service) (port0 : ServicePort)
    (rest : List ServicePort)
    (hd : findDatabase s request.Namespace request.Name = some d)
    (hdep : findDeployment s d.Namespace (d.Name ++ "-postgresql") = some dep)
    (hsvc : findService s d.Namespace (d.Name ++ "-postgresql") = some svc)
    (hports : svc.Spec.Ports = port0 :: rest)
    (hf1 : env.faults.getInstance = none) (hf2 : env.faults.refDeployment = none)
    (hf3 : env.faults.getDeployment = none) (hf4 : env.faults.updateDBName = none)
    (hf5 : env.faults.refService = none) (hf6 : env.faults.getService = none)
    (hf7 : env.faults.updateConnection = none) :
    (∃ d', findDatabase (Reconcile env s request).store request.Namespace request.Name
        = some d' ∧
      d'.Status.DBConnectionIP = svc.Spec.ClusterIP ∧
      d'.Status.DBConnectionPort = port0.TargetPort.IntVal) ∧
    (∀ (cr : Database) (refs : List OwnerReference) (ip : String),
      ∃ p, (allocate ip { newServiceForCR cr with OwnerReferences := refs }).Spec.Ports = [p] ∧
        p.TargetPort.IntVal = 5432 ∧ p.Port = 5432) ∧
    (∀ cm e, Event.create (.configMap cm) e ∈ (Reconcile env s request).trace →
      ∃ d', findDatabase (Reconcile env s request).store request.Namespace request.Name
          = some d' ∧
        mapGet cm.Data DBPortKey = toString d'.Status.DBConnectionPort ∧
        (mapGet cm.Data DBPortKey).toInt? = some d'.Status.DBConnectionPort) := by
  refine ⟨?_, ?_, ?_⟩
  · obtain ⟨hns, hnm⟩ := findDatabase_name hd
    obtain ⟨rns, rname⟩ := request
    simp only at hns hnm hd
    subst hns hnm
    have hd' := hd
    have hrun : Reconcile env s ⟨d.Namespace, d.Name⟩ =
        ensureSecret env
          ((s.withStatus (withDBName d (mapGet (initialData d) DBNameKey))).withStatus
            (withConnection (withDBName d (mapGet (initialData d) DBNameKey))
              svc.Spec.ClusterIP port0.TargetPort.IntVal))
          [.get .database d.Namespace d.Name none,
            .setControllerReference .deployment none,
            .get .deployment d.Namespace (d.Name ++ "-postgresql") none,
            .statusUpdate (withDBName d (mapGet (initialData d) DBNameKey)) none,
            .setControllerReference .service none,
            .get .service d.Namespace (d.Name ++ "-postgresql") none,
            .statusUpdate (withConnection (withDBName d (mapGet (initialData d) DBNameKey))
              svc.Spec.ClusterIP port0.TargetPort.IntVal) none]
          (withConnection (withDBName d (mapGet (initialData d) DBNameKey))
            svc.Spec.ClusterIP port0.TargetPort.IntVal)
          (mapSet (mapSet (initialData d) DBHostKey svc.Spec.ClusterIP) DBPortKey
            (toString port0.TargetPort.IntVal)) := by
      simp [Reconcile, ensureDeployment, ensureService, clientGet, clientStatusUpdate,
        SetControllerReference, hf1, hf2, hf3, hf4, hf5, hf6, hf7, hd, hd', hdep, hsvc, hports,
        builder_keys, newServiceForCR_key, findDatabase_withStatus]
    have hfind : findDatabase
        ((s.withStatus (withDBName d (mapGet (initialData d) DBNameKey))).withStatus
          (withConnection (withDBName d (mapGet (initialData d) DBNameKey))
            svc.Spec.ClusterIP port0.TargetPort.IntVal))
        (withConnection (withDBName d (mapGet (initialData d) DBNameKey))
          svc.Spec.ClusterIP port0.TargetPort.IntVal).Namespace
        (withConnection (withDBName d (mapGet (initialData d) DBNameKey))
          svc.Spec.ClusterIP port0.TargetPort.IntVal).Name
        = some (withConnection (withDBName d (mapGet (initialData d) DBNameKey))
          svc.Spec.ClusterIP port0.TargetPort.IntVal) := by
      simp only [findDatabase_withStatus, withConnection_proj, withDBName_proj, hd',
        Option.map_some', and_self, if_true]
      rfl
    obtain ⟨d', h1, h2, h3, _⟩ := ensureSecret_keeps_connection env _
      [.get .database d.Namespace d.Name none,
        .setControllerReference .deployment none,
        .get .deployment d.Namespace (d.Name ++ "-postgresql") none,
        .statusUpdate (withDBName d (mapGet (initialData d) DBNameKey)) none,
        .setControllerReference .service none,
        .get .service d.Namespace (d.Name ++ "-postgresql") none,
        .statusUpdate (withConnection (withDBName d (mapGet (initialData d) DBNameKey))
          svc.Spec.ClusterIP port0.TargetPort.IntVal) none]
      _ (mapSet (mapSet (initialData d) DBHostKey svc.Spec.ClusterIP) DBPortKey
        (toString port0.TargetPort.IntVal)) hfind
    rw [hrun]
    simp only [withConnection_proj, withDBName_proj] at h1 h2 h3
    exact ⟨d', h1, h2, h3⟩
  · intro cr refs ip
    refine ⟨⟨cr.Name ++ "-postgresql", 5432, "TCP", FromInt 5432⟩, ?_, rfl, rfl⟩
    rw [(allocate_key _ _).2.2]
    rfl
  · intro cm e hmem
    obtain ⟨d', h1, h2⟩ := created_configMap_data env s request cm e hmem
    have hp : mapGet cm.Data DBPortKey = toString d'.Status.DBConnectionPort := by
      rw [h2]
      simp [mapGet, DBPortKey]
    exact ⟨d', h1, hp, by rw [hp]; exact toInt?_toString _⟩

/-- C17, at the third invocation of the cold-start scenario, which finds the Service. -/
theorem connection_status_from_service_witness :
    ∃ d, findDatabase (Reconcile coldEnv (storeAfter 2) coldRequest).store
        coldRequest.Namespace coldRequest.Name = some d ∧
      d.Status.DBConnectionIP = "10.0.0.5" ∧ d.Status.DBConnectionPort = 5432 :=
  (connection_status_from_service coldEnv (storeAfter 2) coldRequest _ _ _ _ _
    rfl rfl rfl rfl rfl rfl rfl rfl rfl rfl rfl).1

/-- C18 (at most one create per invocation).  An invocation issues at most one create call,
whatever the results of its calls; and when it issues one, exactly one lookup of the invocation
returned an error, namely the lookup of the created object under its namespace and name, which
returned not-found, while the lookups that found their object are those of the Primary and of
the kinds before the created one, in the order Deployment, Service, Secret, ConfigMap. -/
theorem at_most_one_create (env : Env) (s : Store) (request : Request) :
    ((Reconcile env s request).trace.filter Event.isCreate).length ≤ 1 ∧
    ∀ c r, Event.create c r ∈ (Reconcile env s request).trace →
      (∃ e, IsNotFound e = true ∧
        failedLookups (Reconcile env s request).trace = [(c.kind, c.namespace, c.name, e)]) ∧
      foundKinds (Reconcile env s request).trace = stageOrder.take c.kind.rank := by
  constructor
  · let P : Run → Prop := fun run => (run.trace.filter Event.isCreate).length ≤ 1
    show P _
    apply Reconcile_cases env s request
    · intro inst hinst hns hname hfi
      apply ensureDeployment_cases env s _ inst _ _ rfl
      · intro dep hdep hgd hud hdb
        apply ensureService_cases env _ _ _ _ _ rfl
        · intro svc port0 rest hsvc hports hgs hus hdb2
          apply ensureSecret_cases env _ _ _ _ _ rfl
          · intro sec hsec hgsec husec hdb3
            apply ensureConfigMap_cases env _ _ _ _ _ rfl
            · intro cm hcm hgcm
              apply persistConfigMap_cases
              all_goals (intros; simp [P, List.filter_cons, Event.isCreate])
            · intro e0 hnf0 hcm
              apply persistConfigMap_cases
              all_goals (intros; simp [P, List.filter_cons, Event.isCreate])
            all_goals (intros; simp [P, List.filter_cons, Event.isCreate])
          all_goals (intros; simp [P, List.filter_cons, Event.isCreate])
        all_goals (intros; simp [P, List.filter_cons, Event.isCreate])
      all_goals (intros; simp [P, List.filter_cons, Event.isCreate])
    all_goals (intros; simp [P, List.filter_cons, Event.isCreate])
  · let P : Run → Prop := fun run =>
      ∀ c r, Event.create c r ∈ run.trace →
        (∃ e, IsNotFound e = true ∧
          failedLookups run.trace = [(c.kind, c.namespace, c.name, e)]) ∧
        foundKinds run.trace = stageOrder.take c.kind.rank
    show P _
    apply Reconcile_cases env s request
    · intro inst hinst hns hname hfi
      apply ensureDeployment_cases env s _ inst _ _ rfl
      · intro dep hdep hgd hud hdb
        apply ensureService_cases env _ _ _ _ _ rfl
        · intro svc port0 rest hsvc hports hgs hus hdb2
          apply ensureSecret_cases env _ _ _ _ _ rfl
          · intro sec hsec hgsec husec hdb3
            apply ensureConfigMap_cases env _ _ _ _ _ rfl
            · intro cm hcm hgcm
              apply persistConfigMap_cases
              case done =>
                intro hfu hdbp
                simp [P, Child.kind, Child.namespace, Child.name, builder_keys, newServiceForCR_key, foundKinds, failedLookups, stageOrder, Kind.rank]
              case updateErr =>
                intro e
                simp [P, Child.kind, Child.namespace, Child.name, builder_keys, newServiceForCR_key, foundKinds, failedLookups, stageOrder, Kind.rank]
            · intro e0 hnf0 hcm
              apply persistConfigMap_cases
              case done =>
                intro hfu hdbp
                simp [P, Child.kind, Child.namespace, Child.name, builder_keys, newServiceForCR_key, foundKinds, failedLookups, stageOrder, Kind.rank]; exact hnf0
              case updateErr =>
                intro e
                simp [P, Child.kind, Child.namespace, Child.name, builder_keys, newServiceForCR_key, foundKinds, failedLookups, stageOrder, Kind.rank]; exact hnf0
            case refErr =>
              intro e he
              simp [P, Child.kind, Child.namespace, Child.name, builder_keys, newServiceForCR_key, foundKinds, failedLookups, stageOrder, Kind.rank]
            case getErr =>
              intro e he hnf
              simp [P, Child.kind, Child.namespace, Child.name, builder_keys, newServiceForCR_key, foundKinds, failedLookups, stageOrder, Kind.rank]
            case createErr =>
              intro e0 e hnf
              simp [P, Child.kind, Child.namespace, Child.name, builder_keys, newServiceForCR_key, foundKinds, failedLookups, stageOrder, Kind.rank]; exact hnf
          case refErr =>
            intro e he
            simp [P, Child.kind, Child.namespace, Child.name, builder_keys, newServiceForCR_key, foundKinds, failedLookups, stageOrder, Kind.rank]
          case getErr =>
            intro e he hnf
            simp [P, Child.kind, Child.namespace, Child.name, builder_keys, newServiceForCR_key, foundKinds, failedLookups, stageOrder, Kind.rank]
          case createErr =>
            intro e0 e hnf
            simp [P, Child.kind, Child.namespace, Child.name, builder_keys, newServiceForCR_key, foundKinds, failedLookups, stageOrder, Kind.rank]; exact hnf
          case created =>
            intro e0 hnf hfind
            simp [P, Child.kind, Child.namespace, Child.name, builder_keys, newServiceForCR_key, foundKinds, failedLookups, stageOrder, Kind.rank]; exact hnf
          case updateErr =>
            intro found e hfound
            simp [P, Child.kind, Child.namespace, Child.name, builder_keys, newServiceForCR_key, foundKinds, failedLookups, stageOrder, Kind.rank]
        case refErr =>
          intro e he
          simp [P, Child.kind, Child.namespace, Child.name, builder_keys, newServiceForCR_key, foundKinds, failedLookups, stageOrder, Kind.rank]
        case getErr =>
          intro e he hnf
          simp [P, Child.kind, Child.namespace, Child.name, builder_keys, newServiceForCR_key, foundKinds, failedLookups, stageOrder, Kind.rank]
        case createErr =>
          intro e0 e hnf
          simp [P, Child.kind, Child.namespace, Child.name, builder_keys, newServiceForCR_key, foundKinds, failedLookups, stageOrder, Kind.rank]; exact hnf
        case created =>
          intro e0 hnf hfind
          simp [P, Child.kind, Child.namespace, Child.name, builder_keys, newServiceForCR_key, foundKinds, failedLookups, stageOrder, Kind.rank]; exact hnf
        case panics =>
          intro found hfound hps
          simp [P, Child.kind, Child.namespace, Child.name, builder_keys, newServiceForCR_key, foundKinds, failedLookups, stageOrder, Kind.rank]
        case updateErr =>
          intro found p0 ps e hfound hps
          simp [P, Child.kind, Child.namespace, Child.name, builder_keys, newServiceForCR_key, foundKinds, failedLookups, stageOrder, Kind.rank]
      case refErr =>
        intro e he
        simp [P, Child.kind, Child.namespace, Child.name, builder_keys, newServiceForCR_key, foundKinds, failedLookups, stageOrder, Kind.rank]
      case getErr =>
        intro e he hnf
        simp [P, Child.kind, Child.namespace, Child.name, builder_keys, newServiceForCR_key, foundKinds, failedLookups, stageOrder, Kind.rank]
      case createErr =>
        intro e0 e hnf
        simp [P, Child.kind, Child.namespace, Child.name, builder_keys, newServiceForCR_key, foundKinds, failedLookups, stageOrder, Kind.rank]; exact hnf
      case created =>
        intro e0 hnf hfind
        simp [P, Child.kind, Child.namespace, Child.name, builder_keys, newServiceForCR_key, foundKinds, failedLookups, stageOrder, Kind.rank]; exact hnf
      case updateErr =>
        intro found e hfound
        simp [P, Child.kind, Child.namespace, Child.name, builder_keys, newServiceForCR_key, foundKinds, failedLookups, stageOrder, Kind.rank]
    case absent =>
      intro e hnf hget
      simp [P, Child.kind, Child.namespace, Child.name, builder_keys, newServiceForCR_key, foundKinds, failedLookups, stageOrder, Kind.rank]
    case fetchErr =>
      intro e hnf he
      simp [P, Child.kind, Child.namespace, Child.name, builder_keys, newServiceForCR_key, foundKinds, failedLookups, stageOrder, Kind.rank]

/-- C18, at the first invocation of the cold-start scenario, which creates the Deployment. -/
theorem at_most_one_create_witness :
    Event.create (.deployment coldDeployment) none
      ∈ (Reconcile coldEnv coldStore coldRequest).trace ∧
    foundKinds (Reconcile coldEnv coldStore coldRequest).trace = [.database] :=
  ⟨by decide,
    ((at_most_one_create coldEnv coldStore coldRequest).2 (.deployment coldDeployment) none
      (by decide)).2⟩

/-- C19 (stage order).  A create call for a child is only made in an invocation in which the
lookups of all the kinds before it, in the order Deployment, Service, Secret, ConfigMap, found
their object; a store without children has its children in order, and any sequence of
invocations, with any failures and for any requests, keeps them in order: a Service exists only
with its Deployment, a Secret only with its Service, a ConfigMap only with its Secret. -/
theorem stage_order_invariant :
    (∀ (env : Env) (s : Store) (request : Request) (c : Child) (r : Option Err),
      Event.create c r ∈ (Reconcile env s request).trace →
      ∀ k, 1 ≤ k.rank → k.rank < c.kind.rank →
        k ∈ foundKinds (Reconcile env s request).trace) ∧
    (∀ s : Store, s.deployments = [] → s.services = [] → s.secrets = [] → s.configMaps = [] →
      childrenInOrder s) ∧
    (∀ (steps : List (Env × Request)) (s : Store),
      childrenInOrder s → childrenInOrder (reconcileAll steps s)) := by
  refine ⟨create_after_found, ?_, childrenInOrder_reconcileAll⟩
  intro s h1 h2 h3 h4
  intro ns p
  simp [findService, findSecret, findConfigMap, h2, h3, h4]

/-- C19, at a sequence of three invocations from the cold-start store, the second with a
failing lookup of the Service. -/
theorem stage_order_invariant_witness :
    childrenInOrder
      (reconcileAll
        [(coldEnv, coldRequest), (serviceLookupFails, coldRequest), (coldEnv, coldRequest)]
        coldStore) :=
  stage_order_invariant.2.2 _ _ (stage_order_invariant.2.1 coldStore rfl rfl rfl rfl)

/-- C20 (port indexing safety).  An invocation fails on an index out of range only after the
lookup of the Service found one; and when that lookup found a Service, the invocation fails on
an index out of range exactly when the port list of that Service is empty.  A Service built by
the Service builder, as the store keeps it, has exactly one port mapping. -/
theorem port_index_out_of_range_iff (env : Env) (s : Store) (request : Request) :
    ((Reconcile env s request).outcome = .panic →
      Kind.service ∈ foundKinds (Reconcile env s request).trace) ∧
    (∀ svc, findService s request.Namespace (request.Name ++ "-postgresql") = some svc →
      Kind.service ∈ foundKinds (Reconcile env s request).trace →
      ((Reconcile env s request).outcome = .panic ↔ svc.Spec.Ports = [])) ∧
    (∀ (cr : Database) (refs : List OwnerReference) (ip : String),
      (allocate ip { newServiceForCR cr with OwnerReferences := refs }).Spec.Ports.length = 1) := by
  refine ⟨?_, ?_, fun cr refs ip => by rw [(allocate_key _ _).2.2]; rfl⟩
  · let P : Run → Prop := fun run => run.outcome = .panic → Kind.service ∈ foundKinds run.trace
    show P _
    apply Reconcile_cases env s request
    · intro inst hinst hns hname hfi
      apply ensureDeployment_cases env s _ inst _ _ rfl
      · intro dep hdep hgd hud hdb
        apply ensureService_cases env _ _ _ _ _ rfl
        · intro svc port0 rest hsvc hports hgs hus hdb2
          apply ensureSecret_cases env _ _ _ _ _ rfl
          · intro sec hsec hgsec husec hdb3
            apply ensureConfigMap_cases env _ _ _ _ _ rfl
            · intro cm hcm hgcm
              apply persistConfigMap_cases
              all_goals (intros; simp [P, foundKinds])
            · intro e0 hnf0 hcm
              apply persistConfigMap_cases
              all_goals (intros; simp [P, foundKinds])
            all_goals (intros; simp [P, foundKinds])
          all_goals (intros; simp [P, foundKinds])
        all_goals (intros; simp [P, foundKinds])
      all_goals (intros; simp [P, foundKinds])
    all_goals (intros; simp [P, foundKinds])
  · let P : Run → Prop := fun run =>
      ∀ svc, findService s request.Namespace (request.Name ++ "-postgresql") = some svc →
        Kind.service ∈ foundKinds run.trace → (run.outcome = .panic ↔ svc.Spec.Ports = [])
    show P _
    apply Reconcile_cases env s request
    · intro inst hinst hns hname hfi
      apply ensureDeployment_cases env s _ inst _ _ rfl
      · intro dep hdep hgd hud hdb
        apply ensureService_cases env _ _ _ _ _ rfl
        · intro svc port0 rest hsvc hports hgs hus hdb2
          apply ensureSecret_cases env _ _ _ _ _ rfl
          · intro sec hsec hgsec husec hdb3
            apply ensureConfigMap_cases env _ _ _ _ _ rfl
            · intro cm hcm hgcm
              apply persistConfigMap_cases
              case done =>
                intro hfu hdbp
                simp only [find_withStatus, withDBName_proj, hns, hname] at hsvc; simp [P, foundKinds, hsvc, hports]
              case updateErr =>
                intro e
                simp only [find_withStatus, withDBName_proj, hns, hname] at hsvc; simp [P, foundKinds, hsvc, hports]
            · intro e0 hnf0 hcm
              apply persistConfigMap_cases
              case done =>
                intro hfu hdbp
                simp only [find_withStatus, withDBName_proj, hns, hname] at hsvc; simp [P, foundKinds, hsvc, hports]
              case updateErr =>
                intro e
                simp only [find_withStatus, withDBName_proj, hns, hname] at hsvc; simp [P, foundKinds, hsvc, hports]
            case refErr =>
              intro e he
              simp only [find_withStatus, withDBName_proj, hns, hname] at hsvc; simp [P, foundKinds, hsvc, hports]
            case getErr =>
              intro e he hnf
              simp only [find_withStatus, withDBName_proj, hns, hname] at hsvc; simp [P, foundKinds, hsvc, hports]
            case createErr =>
              intro e0 e hnf
              simp only [find_withStatus, withDBName_proj, hns, hname] at hsvc; simp [P, foundKinds, hsvc, hports]
          case refErr =>
            intro e he
            simp only [find_withStatus, withDBName_proj, hns, hname] at hsvc; simp [P, foundKinds, hsvc, hports]
          case getErr =>
            intro e he hnf
            simp only [find_withStatus, withDBName_proj, hns, hname] at hsvc; simp [P, foundKinds, hsvc, hports]
          case createErr =>
            intro e0 e hnf
            simp only [find_withStatus, withDBName_proj, hns, hname] at hsvc; simp [P, foundKinds, hsvc, hports]
          case created =>
            intro e0 hnf hfind
            simp only [find_withStatus, withDBName_proj, hns, hname] at hsvc; simp [P, foundKinds, hsvc, hports]
          case updateErr =>
            intro found e hfound
            simp only [find_withStatus, withDBName_proj, hns, hname] at hsvc; simp [P, foundKinds, hsvc, hports]
        case refErr =>
          intro e he
          simp [P, foundKinds]
        case getErr =>
          intro e he hnf
          simp [P, foundKinds]
        case createErr =>
          intro e0 e hnf
          simp [P, foundKinds]
        case created =>
          intro e0 hnf hfind
          simp [P, foundKinds]
        case panics =>
          intro found hfound hps
          simp only [find_withStatus, withDBName_proj, hns, hname] at hfound; simp [P, foundKinds, hfound, hps]
        case updateErr =>
          intro found p0 ps e hfound hps
          simp only [find_withStatus, withDBName_proj, hns, hname] at hfound; simp [P, foundKinds, hfound, hps]
      case refErr =>
        intro e he
        simp [P, foundKinds]
      case getErr =>
        intro e he hnf
        simp [P, foundKinds]
      case createErr =>
        intro e0 e hnf
        simp [P, foundKinds]
      case created =>
        intro e0 hnf hfind
        simp [P, foundKinds]
      case updateErr =>
        intro found e hfound
        simp [P, foundKinds]
    case absent =>
      intro e hnf hget
      simp [P, foundKinds]
    case fetchErr =>
      intro e hnf he
      simp [P, foundKinds]

/-- C20, at a store whose Service for `pgdb1` has no port mapping. -/
theorem port_index_out_of_range_iff_witness :
    portlessService.Spec.Ports = [] ∧
    (Reconcile coldEnv portlessStore coldRequest).outcome = .panic :=
  ⟨rfl,
    ((port_index_out_of_range_iff coldEnv portlessStore coldRequest).2.1 portlessService
      (by decide) (by decide)).2 rfl⟩

end PostgresqlOperator
